import Mathlib

/-!
Geners generic serialization (`Alignment/Geners/interface/GenericIO.hh`)

A shallow embedding of the reader and writer rules of `GenericIO.hh` and of
the top-level verbs `write_item`, `restore_item`, `read_item`.

* A C++ reference or pointer argument that the code mutates becomes an extra
  component of the returned value.
* `T *&ptr` is an `Option T`: `none` is the null pointer, `some v` a pointer
  to an instance holding `v`.
* `State` (`std::vector<ClassId>`) is a `List ClassId` whose last entry is
  `back()`.
* A `throw` or a failed `assert` ends the call with `Except.error`.

The file also embeds `GenFilterInfo::mergeProduct` of
`SimDataFormats/GeneratorProducts/src/GenFilterInfo.cc`.
-/

/-! ## `GenFilterInfo` -/

/-- The data members of `GenFilterInfo`: four `unsigned int` event counters,
kept as natural numbers below `2 ^ 32`, and four `double` sums of weights;
`D` stands for `double`. -/
structure GenFilterInfo (D : Type) where
  numPassPositiveEvents_ : Nat
  numPassNegativeEvents_ : Nat
  numTotalPositiveEvents_ : Nat
  numTotalNegativeEvents_ : Nat
  sumPassWeights_ : D
  sumPassWeights2_ : D
  sumFailWeights_ : D
  sumFailWeights2_ : D

/-- The call `self.mergeProduct(other)`: the result and the object as the
call leaves it; `other` is taken by reference to const. `add` is the sum of
two `double`, and the sum of two `unsigned int` is reduced modulo
`2 ^ 32`. -/
def GenFilterInfo.mergeProduct {D : Type} (add : D → D → D)
    (self other : GenFilterInfo D) : Bool × GenFilterInfo D :=
  (true,
    { numPassPositiveEvents_ :=
        (self.numPassPositiveEvents_ + other.numPassPositiveEvents_) % 2 ^ 32
      numPassNegativeEvents_ :=
        (self.numPassNegativeEvents_ + other.numPassNegativeEvents_) % 2 ^ 32
      numTotalPositiveEvents_ :=
        (self.numTotalPositiveEvents_ + other.numTotalPositiveEvents_) % 2 ^ 32
      numTotalNegativeEvents_ :=
        (self.numTotalNegativeEvents_ + other.numTotalNegativeEvents_) % 2 ^ 32
      sumPassWeights_ := add self.sumPassWeights_ other.sumPassWeights_
      sumPassWeights2_ := add self.sumPassWeights2_ other.sumPassWeights2_
      sumFailWeights_ := add self.sumFailWeights_ other.sumFailWeights_
      sumFailWeights2_ := add self.sumFailWeights2_ other.sumFailWeights2_ })

namespace gs

/-! ## Bytes and machine integers -/

/-- One `char` of a stream or of a `std::string`. -/
abbrev Byte := Nat

/-- Little-endian object representation of `n` on `k` bytes (`n` is reduced
modulo `256 ^ k`). -/
def leBytes : Nat → Nat → List Byte
  | 0, _ => []
  | k + 1, n => n % 256 :: leBytes k (n / 256)

/-- Value of a little-endian byte sequence. -/
def leValue : List Byte → Nat
  | [] => 0
  | b :: bs => b % 256 + 256 * leValue bs

/-- The type `std::size_t`: unsigned, 64 bits wide. -/
abbrev SizeT := Fin (2 ^ 64)

/-- The type `unsigned`: 32 bits wide. -/
abbrev Unsigned := Fin (2 ^ 32)

/-- The type `int`: 32 bits wide, two's complement. -/
abbrev CInt := { a : Int // -(2 : Int) ^ 31 ≤ a ∧ a < (2 : Int) ^ 31 }

/-- Conversion of a length to `std::size_t` (reduction modulo `2 ^ 64`). -/
def toSizeT (n : Nat) : SizeT := ⟨n % 2 ^ 64, Nat.mod_lt _ (by decide)⟩

/-- Conversion to `unsigned` (reduction modulo `2 ^ 32`). -/
def toUnsigned (n : Nat) : Unsigned := ⟨n % 2 ^ 32, Nat.mod_lt _ (by decide)⟩

/-- Conversion of a 32-bit pattern to `int` (two's complement). -/
def toCInt (n : Nat) : CInt :=
  if h : n % 2 ^ 32 < 2 ^ 31 then
    ⟨((n % 2 ^ 32 : Nat) : Int), by constructor <;> omega⟩
  else
    ⟨((n % 2 ^ 32 : Nat) : Int) - 2 ^ 32, by
      have h2 : n % 2 ^ 32 < 2 ^ 32 := Nat.mod_lt _ (by decide)
      constructor <;> omega⟩

/-- A type for which `IOTraits<T>::IsPOD` holds: it is written and read as
its `sizeof(T)` raw bytes. `repr` is the object representation of a value,
`unrepr` the value of an object holding the given bytes, `init` the value of
`T()`. -/
class POD (T : Type) where
  sizeof : Nat
  init : T
  repr : T → List Byte
  unrepr : List Byte → T
  repr_length : ∀ v, (repr v).length = sizeof
  unrepr_repr : ∀ v, unrepr (repr v) = v

/-- The type `std::size_t` is a POD of 8 bytes. -/
instance instPODSizeT : POD SizeT where
  sizeof := 8
  init := toSizeT 0
  repr v := leBytes 8 v.val
  unrepr bs := toSizeT (leValue bs)
  repr_length v := by simp [leBytes]
  unrepr_repr v := by
    apply Fin.ext
    have h := v.isLt
    simp only [toSizeT, leBytes, leValue]
    omega

/-- The type `unsigned` is a POD of 4 bytes. -/
instance instPODUnsigned : POD Unsigned where
  sizeof := 4
  init := toUnsigned 0
  repr v := leBytes 4 v.val
  unrepr bs := toUnsigned (leValue bs)
  repr_length v := by simp [leBytes]
  unrepr_repr v := by
    apply Fin.ext
    have h := v.isLt
    simp only [toUnsigned, leBytes, leValue]
    omega

/-- The type `int` is a POD of 4 bytes. -/
instance instPODCInt : POD CInt where
  sizeof := 4
  init := toCInt 0
  repr a := leBytes 4 (a.val % 2 ^ 32).toNat
  unrepr bs := toCInt (leValue bs)
  repr_length a := by simp [leBytes]
  unrepr_repr a := by
    obtain ⟨a, h1, h2⟩ := a
    apply Subtype.ext
    simp only [toCInt, leBytes, leValue]
    split <;> simp only <;> omega

/-! ## Streams -/

/-- A `std::ostream`: the chars the sink has accepted so far, the number of
chars it can still accept (`none`: no limit) and the fail state. -/
structure OStream where
  out : List Byte
  room : Option Nat
  failbit : Bool
deriving DecidableEq, Repr

/-- The call `os.fail()` -/
def OStream.fail (os : OStream) : Bool := os.failbit

/-- The call `os.write(p, n)`: nothing happens on a failed stream; otherwise the sink
takes the chars it has room for and the stream fails when it cannot take all
of them. -/
def OStream.write (os : OStream) (bs : List Byte) : OStream :=
  if os.failbit then os
  else
    match os.room with
    | none => { os with out := os.out ++ bs }
    | some r =>
      if bs.length ≤ r then
        { out := os.out ++ bs, room := some (r - bs.length), failbit := false }
      else
        { out := os.out ++ bs.take r, room := some 0, failbit := true }

/-- An empty healthy output stream over a sink without limit. -/
def OStream.empty : OStream := { out := [], room := none, failbit := false }

/-- A `std::istream`: the chars not yet extracted and the fail state. -/
structure IStream where
  buf : List Byte
  failbit : Bool
deriving DecidableEq, Repr

/-- The call `is.fail()` -/
def IStream.fail (is : IStream) : Bool := is.failbit

/-- The call `is.read(p, n)`: returns the chars stored at `p`. Nothing is extracted
from a failed stream; when fewer than `n` chars are left they are all
extracted and the stream fails. -/
def IStream.read (is : IStream) (n : Nat) : List Byte × IStream :=
  if is.failbit then ([], is)
  else if n ≤ is.buf.length then
    (is.buf.take n, { buf := is.buf.drop n, failbit := false })
  else
    (is.buf, { buf := [], failbit := true })

/-- A healthy input stream over the given chars. -/
def IStream.ofBytes (bs : List Byte) : IStream := { buf := bs, failbit := false }

/-! ## `binaryIO.hh` -/

/-- Object representation of an array of POD values. -/
def reprArray {T : Type} [POD T] : List T → List Byte
  | [] => []
  | x :: xs => POD.repr x ++ reprArray xs

/-- Values of `n` consecutive POD objects holding the given bytes. -/
def unreprArray {T : Type} [POD T] : Nat → List Byte → List T
  | 0, _ => []
  | n + 1, bs =>
    POD.unrepr (bs.take (POD.sizeof T)) :: unreprArray n (bs.drop (POD.sizeof T))

/-- Modelled from the spec: `write_pod` of `binaryIO.hh`, "emit the raw
fixed-size representation". -/
def write_pod {T : Type} [POD T] (os : OStream) (pod : T) : OStream :=
  os.write (POD.repr pod)

/-- Modelled from the spec: `read_pod` of `binaryIO.hh`, "read the raw bytes
into" the target. The chars extracted overwrite the leading bytes of the
target object. -/
def read_pod {T : Type} [POD T] (is : IStream) (pod : T) : T × IStream :=
  let r := is.read (POD.sizeof T)
  (POD.unrepr (r.1 ++ (POD.repr pod).drop r.1.length), r.2)

/-- Modelled from the spec: `write_pod_array` of `binaryIO.hh`, "one bulk
raw-memory block covering all elements": the first `len` objects at `pod`. -/
def write_pod_array {T : Type} [POD T] (os : OStream) (pod : List T) (len : Nat) :
    OStream :=
  os.write (reprArray (pod.take len))

/-- Modelled from the spec: `read_pod_array` of `binaryIO.hh`, one bulk read
of `len` objects into the storage at `pod`. -/
def read_pod_array {T : Type} [POD T] (is : IStream) (pod : List T) (len : Nat) :
    List T × IStream :=
  let r := is.read (len * POD.sizeof T)
  (unreprArray len (r.1 ++ (reprArray pod).drop r.1.length), r.2)

/-- The call `v.resize(n)` of `std::vector` and `std::string`: keeps the first `n`
elements and appends copies of `fill` up to length `n`. -/
def resize {T : Type} (fill : T) (v : List T) (n : Nat) : List T :=
  v.take n ++ List.replicate (n - v.length) fill

/-- Modelled from the spec: `write_string<char>` of `binaryIO.hh`,
"length-prefixed byte content": the size as a `std::size_t`, then the
chars. -/
def write_string (os : OStream) (v : List Byte) : OStream :=
  let sz : SizeT := toSizeT v.length
  let os1 := write_pod os sz
  if sz.val ≠ 0 then os1.write (v.take sz.val) else os1

/-- Modelled from the spec: `read_string<char>` of `binaryIO.hh`,
"length-prefixed decode into" the target string: the size is read, the
string is resized to it and its chars are read in one block. -/
def read_string (is : IStream) (pv : List Byte) : List Byte × IStream :=
  let r := read_pod is (toSizeT 0)
  if r.2.fail then (pv, r.2)
  else
    let v := resize 0 pv r.1.val
    if r.1.val = 0 then (v, r.2)
    else
      let q := r.2.read r.1.val
      (q.1 ++ v.drop q.1.length, q.2)

/-! ## Errors -/

/-- What ends a call early: one of the two exceptions of `IOException.hh`
that `GenericIO.hh` throws, a failed `assert`, or the `std::length_error` of
`std::vector::resize`. -/
inductive Raised where
  | IOReadFailure (what : String)
  | IOInvalidData (what : String)
  | assertFailed
  | lengthError
deriving DecidableEq, Repr

/-! ## ClassId -/

/-- Modelled from the spec: `ClassId` of `ClassId.hh`, "{name: string,
version: unsigned integer, templateParameters: ordered sequence of
ClassIdentity}". -/
inductive ClassId where
  | mk (name : List Byte) (version : Nat) (templateParameters : List ClassId)

/-- The call `id.name()` -/
def ClassId.name : ClassId → List Byte
  | .mk n _ _ => n

/-- The call `id.version()` -/
def ClassId.version : ClassId → Nat
  | .mk _ v _ => v

/-- The template-parameter identities of an identity. -/
def ClassId.params : ClassId → List ClassId
  | .mk _ _ ps => ps

/-- Modelled from the spec: the call `id.id()`, the text by which a
diagnostic names the identity; it is the name of the identity. -/
def ClassId.id (id : ClassId) : String :=
  String.mk (id.name.map Char.ofNat)

/-- The type `std::vector<ClassId>`, the identity stack; `back()` is the last entry. -/
abbrev State := List ClassId

/-- Modelled from the spec: `ClassId::templateParameters` fills a
`std::vector<std::vector<ClassId>>` with one identity list per template
parameter, the list a field of that type is read against. -/
def ClassId.templateParameters (id : ClassId) : List State :=
  id.params.map (fun p => [p])

mutual
/-- Modelled from the spec: the wire form of a `ClassId`, "name, version,
and recursively-encoded template-parameter identity list": the name as a
length-prefixed string, the version as an `unsigned`, the number of template
parameters as a `std::size_t` and the wire form of each of them. -/
def ClassId.wire : ClassId → List Byte
  | .mk n v ps =>
    leBytes 8 n.length ++ n ++ leBytes 4 v ++ leBytes 8 ps.length ++ ClassId.wireList ps
/-- Wire form of a template-parameter list, its length prefix apart. -/
def ClassId.wireList : List ClassId → List Byte
  | [] => []
  | p :: ps => p.wire ++ ClassId.wireList ps
end

/-- Modelled from the spec: `ClassId::write(os)` emits the wire form and
returns `!os.fail()`. -/
def ClassId.write (id : ClassId) (os : OStream) : Bool × OStream :=
  let os1 := os.write id.wire
  (!os1.fail, os1)

mutual
/-- Reads one identity in wire form. `fuel` bounds the number of identities
read, nested ones included. -/
def ClassId.parse : Nat → IStream → ClassId × IStream
  | 0, is => (.mk [] 0 [], { is with failbit := true })
  | fuel + 1, is =>
    let n := read_string is []
    let v := read_pod n.2 (toUnsigned 0)
    let c := read_pod v.2 (toSizeT 0)
    let ps := ClassId.parseList fuel c.1.val c.2
    (.mk n.1 v.1.val ps.1, ps.2)
/-- Reads `n` identities in wire form, stopping when the stream fails. -/
def ClassId.parseList : Nat → Nat → IStream → List ClassId × IStream
  | _, 0, is => ([], is)
  | 0, _ + 1, is => ([], { is with failbit := true })
  | fuel + 1, n + 1, is =>
    if is.fail then ([], is)
    else
      let p := ClassId.parse fuel is
      let ps := ClassId.parseList fuel n p.2
      (p.1 :: ps.1, ps.2)
end

/-- Modelled from the spec: the constructor `ClassId(is, 1)` parses one
identity from the stream. It does not raise: on a failed or truncated stream
the identity is invalid and the stream is in its fail state. -/
def ClassId.read (is : IStream) : ClassId × IStream :=
  ClassId.parse (is.buf.length + 1) is

/-- Modelled from the spec: `current.ensureSameName(id)`, "identity name
mismatch aborts with an invalid-data condition"; only the names are
compared. -/
def ClassId.ensureSameName (current id : ClassId) : Except Raised Unit :=
  if current.name = id.name then .ok ()
  else .error (.IOInvalidData "In gs::ClassId::ensureSameName: class name mismatch")

/-! ## Rules of `GenericIO.hh`

`current` and `itemId` stand for the static identities
`ClassId::makeId<T>()`, which `ClassId.hh` computes per type. -/

/-- What a read rule hands back: its `bool` result, the object or pointer it
was given by reference, the stream and the identity stack. -/
structure Out (α : Type) where
  status : Bool
  target : α
  str : IStream
  state : State

/-- A write rule `GenericWriter<Stream, State, T, Stage>::process(item, os,
state, processClassId)`. No write rule reads or changes `*state`, so it is
left out. -/
abbrev WriteRule (T : Type) := T → OStream → Bool → Bool × OStream

/-- A read rule `GenericReader<...>::process(item, is, state,
processClassId)`. -/
abbrev ReadRule (T : Type) := T → IStream → State → Bool → Except Raised (Out T)

/-- A rule `GenericReader<...>::readIntoPtr(ptr, is, state,
processClassId)`. -/
abbrev ReadIntoPtr (T : Type) :=
  Option T → IStream → State → Bool → Except Raised (Out (Option T))

/-- Modelled from the spec: `process_const_item` of `ProcessItem.hh`, which
"routes unconditionally to the one codec matching the value's category"; the
codec is `rule`. -/
def process_const_item {T : Type} (rule : WriteRule T) (item : T) (os : OStream)
    (processClassId : Bool) : Bool × OStream :=
  rule item os processClassId

/-- Modelled from the spec: `process_item` of `ProcessItem.hh`, the read-side
dispatcher; the codec of the value's category is `rule`. -/
def process_item {T : Type} (rule : ReadRule T) (item : T) (is : IStream)
    (state : State) (processClassId : Bool) : Except Raised (Out T) :=
  rule item is state processClassId

/-- Rule `GenericWriter<Stream, State, T, Int2Type<ISPOD>>::process` -/
def GenericWriter.ISPOD.process {T : Type} [POD T] (current : ClassId) (s : T)
    (os : OStream) (processClassId : Bool) : Bool × OStream :=
  let st := if processClassId then current.write os else (true, os)
  let os1 := if st.1 then write_pod st.2 s else st.2
  (st.1 && !os1.fail, os1)

/-- Rule `GenericReader<Stream, State, T, Int2Type<ISPOD>>::readIntoPtr` -/
def GenericReader.ISPOD.readIntoPtr {T : Type} [POD T] (current : ClassId)
    (ptr : Option T) (str : IStream) (s : State) (processClassId : Bool) :
    Except Raised (Out (Option T)) :=
  let myptr : T := POD.init
  match (if processClassId then
      (current.ensureSameName (ClassId.read str).1).map (fun _ => (ClassId.read str).2)
    else .ok str) with
  | .error e => .error e
  | .ok str1 =>
    let r := read_pod str1 (ptr.getD myptr)
    if r.2.fail then .ok ⟨false, ptr.map (fun _ => r.1), r.2, s⟩
    else .ok ⟨true, some r.1, r.2, s⟩

/-- Rule `GenericReader<Stream, State, T, Int2Type<ISPOD>>::process` -/
def GenericReader.ISPOD.process {T : Type} [POD T] (current : ClassId) (s : T)
    (os : IStream) (st : State) (processClassId : Bool) : Except Raised (Out T) :=
  match GenericReader.ISPOD.readIntoPtr current (some s) os st processClassId with
  | .error e => .error e
  | .ok r => .ok ⟨r.status, r.target.getD s, r.str, r.state⟩

/-- Rule `GenericWriter<Stream, State, Container, InContainerHeader>::process`;
`isPOD` is `IOTraits<T>::IsPOD` of the element type, `isContiguous` is
`IOTraits<Container>::IsContiguous`. -/
def GenericWriter.InContainerHeader.process (current itemId : ClassId)
    (isPOD isContiguous : Bool) (os : OStream) (processClassId : Bool) :
    Bool × OStream :=
  let st := if processClassId then current.write os else (true, os)
  if st.1 && !(isPOD && isContiguous) then itemId.write st.2 else st

/-- Rule `GenericReader<Stream, State, Container, InContainerHeader>::process` on
a `std::vector`; `a.clear()` leaves it empty. -/
def GenericReader.InContainerHeader.process {T : Type} (current : ClassId)
    (isPOD isContiguous : Bool) (_a : List T) (is : IStream) (state : State)
    (processClassId : Bool) : Except Raised (Out (List T)) :=
  match (if processClassId then
      (current.ensureSameName (ClassId.read is).1).map (fun _ => (ClassId.read is).2)
    else .ok is) with
  | .error e => .error e
  | .ok is1 =>
    if !(isPOD && isContiguous) then
      let id2 := ClassId.read is1
      .ok ⟨true, [], id2.2, state ++ [id2.1]⟩
    else .ok ⟨true, [], is1, state⟩

/-- Rule `GenericWriter<Stream, State, Container, InContainerFooter>::process` -/
def GenericWriter.InContainerFooter.process (os : OStream) : Bool × OStream :=
  (true, os)

/-- Rule `GenericReader<Stream, State, Container, InContainerFooter>::process`;
`pop_back()` removes the last entry. -/
def GenericReader.InContainerFooter.process {T : Type} (isPOD isContiguous : Bool)
    (a : List T) (is : IStream) (state : State) : Except Raised (Out (List T)) :=
  if !(isPOD && isContiguous) then .ok ⟨true, a, is, state.dropLast⟩
  else .ok ⟨true, a, is, state⟩

/-- Rule `GenericWriter<Stream, State, Container, InContainerSize>::process` -/
def GenericWriter.InContainerSize.process (sz : SizeT) (os : OStream) (_ : Bool) :
    Bool × OStream :=
  let os1 := write_pod os sz
  (!os1.fail, os1)

/-- Rule `GenericReader<Stream, State, Container, InContainerSize>::process` -/
def GenericReader.InContainerSize.process (sz : SizeT) (is : IStream) (st : State)
    (_ : Bool) : Except Raised (Out SizeT) :=
  let r := read_pod is sz
  .ok ⟨!r.2.fail, r.1, r.2, st⟩

/-- Rule `GenericWriter<Stream, State, ArrayLike, InPODArray>::process` on a
`std::vector` of POD elements. -/
def GenericWriter.InPODArray.process {T : Type} [POD T] (a : List T) (os : OStream)
    (_ : Bool) : Bool × OStream :=
  let len : SizeT := toSizeT a.length
  let os1 := write_pod os len
  let os2 := if len.val ≠ 0 then write_pod_array os1 a len.val else os1
  (!os2.fail, os2)

/-- Rule `GenericReader<Stream, State, ArrayLike, InPODArray>::process` on a
`std::vector` of POD elements, for a size field within `a.max_size()`, where
`a.resize(len)` returns. The rule on every size field is
`GenericReader.InPODArray.processMax`. -/
def GenericReader.InPODArray.process {T : Type} [POD T] (a : List T) (s : IStream)
    (st : State) (_ : Bool) : Except Raised (Out (List T)) :=
  let r := read_pod s (toSizeT 0)
  if r.2.fail then .ok ⟨false, a, r.2, st⟩
  else
    let a1 := resize POD.init a r.1.val
    if r.1.val = 0 then .ok ⟨true, a1, r.2, st⟩
    else
      let q := read_pod_array r.2 a1 r.1.val
      .ok ⟨!q.2.fail, q.1, q.2, st⟩

/-- Rule `GenericReader<Stream, State, ArrayLike, InPODArray>::process` on a
`std::vector` of POD elements whose `max_size()` is `maxSize`: `a.resize(len)`
throws `std::length_error` when the size field read from the stream is
beyond it, and the rule has no handler. A `std::bad_alloc` of an exhausted
heap, which every allocation of the code can meet, is not part of the
embedding. -/
def GenericReader.InPODArray.processMax {T : Type} [POD T] (maxSize : Nat) (a : List T)
    (s : IStream) (st : State) (_ : Bool) : Except Raised (Out (List T)) :=
  let r := read_pod s (toSizeT 0)
  if r.2.fail then .ok ⟨false, a, r.2, st⟩
  else if maxSize < r.1.val then .error .lengthError
  else
    let a1 := resize POD.init a r.1.val
    if r.1.val = 0 then .ok ⟨true, a1, r.2, st⟩
    else
      let q := read_pod_array r.2 a1 r.1.val
      .ok ⟨!q.2.fail, q.1, q.2, st⟩

/-- Rule `GenericReader<Stream, State, Ptr, Int2Type<ISPOINTER>>::process`: the
switch on the category of the pointee; `readIntoPtr` is the rule of that
category. -/
def GenericReader.ISPOINTER.process {T : Type} (readIntoPtr : ReadIntoPtr T)
    (ptr : Option T) (str : IStream) (s : State) (processClassId : Bool) :
    Except Raised (Out (Option T)) :=
  readIntoPtr ptr str s processClassId

/-- Rule `GenericReader<Stream, State, Ptr, Int2Type<ISNULLPOINTER>>::process`:
the same switch, a heap-readable pointee taking the pure heap-readable
rule. -/
def GenericReader.ISNULLPOINTER.process {T : Type} (readIntoPtr : ReadIntoPtr T)
    (ptr : Option T) (str : IStream) (s : State) (processClassId : Bool) :
    Except Raised (Out (Option T)) :=
  readIntoPtr ptr str s processClassId

/-- Rule `GenericWriter<Stream, State, T, Int2Type<ISPAIR>>::process`;
`writeFirst` and `writeSecond` are the codecs of the two field types. -/
def GenericWriter.ISPAIR.process {A B : Type} (current : ClassId)
    (writeFirst : WriteRule A) (writeSecond : WriteRule B) (s : A × B)
    (os : OStream) (processClassId : Bool) : Bool × OStream :=
  let r0 := if processClassId then current.write os else (true, os)
  if r0.1 then
    let r1 := process_const_item writeFirst s.1 r0.2 false
    if r1.1 then process_const_item writeSecond s.2 r1.2 false
    else (false, r1.2)
  else (false, r0.2)

/-- Rule `GenericReader<Stream, State, T, Int2Type<ISPAIR>>::readIntoPtr`;
`readFirst` and `readSecond` are the codecs of the two field types, `fresh`
is the pair `new T()` holds after `clearIfPointer` on both fields. -/
def GenericReader.ISPAIR.readIntoPtr {A B : Type} (current : ClassId)
    (readFirst : ReadRule A) (readSecond : ReadRule B) (fresh : A × B)
    (ptr : Option (A × B)) (str : IStream) (s : State) (processClassId : Bool) :
    Except Raised (Out (Option (A × B))) :=
  let myptr : A × B := fresh
  let ids : Except Raised (List State × IStream) :=
    if processClassId then
      let pairId := ClassId.read str
      match current.ensureSameName pairId.1 with
      | .error e => .error e
      | .ok _ =>
        if pairId.1.templateParameters.length = 2 then
          .ok (pairId.1.templateParameters, pairId.2)
        else .error .assertFailed
    else
      match s.getLast? with
      | none => .error .assertFailed
      | some back =>
        if back.templateParameters.length ≠ 2 then
          .error (.IOInvalidData
            ("In gs::GenericReader::readIntoPtr: bad class id for std::pair on the class id stack: "
              ++ back.id))
        else .ok (back.templateParameters, str)
  match ids with
  | .error e => .error e
  | .ok (itemIds, str1) =>
    let p := ptr.getD myptr
    match process_item readFirst p.1 str1 (itemIds.getD 0 []) false with
    | .error e => .error e
    | .ok r1 =>
      if r1.status then
        match process_item readSecond p.2 r1.str (itemIds.getD 1 []) false with
        | .error e => .error e
        | .ok r2 =>
          if r2.status then .ok ⟨true, some (r1.target, r2.target), r2.str, s⟩
          else .ok ⟨false, ptr.map (fun _ => (r1.target, r2.target)), r2.str, s⟩
      else .ok ⟨false, ptr.map (fun _ => (r1.target, p.2)), r1.str, s⟩

/-- Rule `GenericReader<Stream, State, T, Int2Type<ISPAIR>>::process` -/
def GenericReader.ISPAIR.process {A B : Type} (current : ClassId)
    (readFirst : ReadRule A) (readSecond : ReadRule B) (fresh : A × B)
    (s : A × B) (os : IStream) (st : State) (processClassId : Bool) :
    Except Raised (Out (A × B)) :=
  match GenericReader.ISPAIR.readIntoPtr current readFirst readSecond fresh (some s) os st
      processClassId with
  | .error e => .error e
  | .ok r => .ok ⟨r.status, r.target.getD s, r.str, r.state⟩

/-- Rule `GenericWriter<Stream, State, std::string, Int2Type<ISSTRING>>::process` -/
def GenericWriter.ISSTRING.process (current : ClassId) (s : List Byte) (os : OStream)
    (processClassId : Bool) : Bool × OStream :=
  let st := if processClassId then current.write os else (true, os)
  let os1 := if st.1 then write_string st.2 s else st.2
  (st.1 && !os1.fail, os1)

/-- Rule `GenericReader<Stream, State, std::string, Int2Type<ISSTRING>>::readIntoPtr` -/
def GenericReader.ISSTRING.readIntoPtr (current : ClassId) (ptr : Option (List Byte))
    (is : IStream) (s : State) (processClassId : Bool) :
    Except Raised (Out (Option (List Byte))) :=
  let myptr : List Byte := []
  match (if processClassId then
      (current.ensureSameName (ClassId.read is).1).map (fun _ => (ClassId.read is).2)
    else .ok is) with
  | .error e => .error e
  | .ok is1 =>
    let r := read_string is1 (ptr.getD myptr)
    if r.2.fail then .ok ⟨false, ptr.map (fun _ => r.1), r.2, s⟩
    else .ok ⟨true, some r.1, r.2, s⟩

/-- Rule `GenericReader<Stream, State, std::string, Int2Type<ISSTRING>>::process` -/
def GenericReader.ISSTRING.process (current : ClassId) (s : List Byte) (is : IStream)
    (st : State) (processClassId : Bool) : Except Raised (Out (List Byte)) :=
  match GenericReader.ISSTRING.readIntoPtr current (some s) is st processClassId with
  | .error e => .error e
  | .ok r => .ok ⟨r.status, r.target.getD s, r.str, r.state⟩

/-- Rule `GenericReader<Stream, State, T, Int2Type<ISSTDCONTAINER>>::readIntoPtr`;
`processItem` is `process_item<GenericReader2>` on the container type and
`fresh` the container `new T()` holds. -/
def GenericReader.ISSTDCONTAINER.readIntoPtr {T : Type} (processItem : ReadRule T)
    (fresh : T) (ptr : Option T) (str : IStream) (s : State) (processClassId : Bool) :
    Except Raised (Out (Option T)) :=
  match ptr with
  | some v =>
    match processItem v str s processClassId with
    | .error e => .error e
    | .ok r => .ok ⟨r.status, some r.target, r.str, r.state⟩
  | none =>
    match processItem fresh str s processClassId with
    | .error e => .error e
    | .ok r =>
      if !r.status then .ok ⟨false, none, r.str, r.state⟩
      else .ok ⟨true, some r.target, r.str, r.state⟩

/-- Modelled from the spec: `process_const_item` of `ProcessItem.hh` on a
contiguous container of POD elements, the protocol of the container codec:
header, then the contiguous-POD fast path ("the size followed by one bulk
raw-memory block"), then footer. -/
def process_const_item_PODArray {T : Type} [POD T] (current itemId : ClassId)
    (obj : List T) (os : OStream) (processClassId : Bool) : Bool × OStream :=
  let h := GenericWriter.InContainerHeader.process current itemId true true os processClassId
  if h.1 then
    let b := GenericWriter.InPODArray.process obj h.2 processClassId
    let f := GenericWriter.InContainerFooter.process b.2
    (f.1 && b.1, f.2)
  else (false, h.2)

/-- Modelled from the spec: `process_item` of `ProcessItem.hh` on a
contiguous container of POD elements: header, bulk block, footer. -/
def process_item_PODArray {T : Type} [POD T] (current : ClassId) (obj : List T)
    (is : IStream) (state : State) (processClassId : Bool) :
    Except Raised (Out (List T)) :=
  match GenericReader.InContainerHeader.process current true true obj is state
      processClassId with
  | .error e => .error e
  | .ok h =>
    if h.status then
      match GenericReader.InPODArray.process h.target h.str h.state processClassId with
      | .error e => .error e
      | .ok b =>
        match GenericReader.InContainerFooter.process true true b.target b.str b.state with
        | .error e => .error e
        | .ok f => .ok ⟨f.status && b.status, f.target, f.str, f.state⟩
    else .ok ⟨false, h.target, h.str, h.state⟩

/-- The spec's hypothetical element-by-element writing of a contiguous POD
container: the container-size write rule, then the POD write rule without
identity tag on each element in order. -/
def writeElementwise {T : Type} [POD T] (itemId : ClassId) (a : List T)
    (os : OStream) : Bool × OStream :=
  a.foldl
    (fun acc x =>
      let w := GenericWriter.ISPOD.process itemId x acc.2 false
      (acc.1 && w.1, w.2))
    (GenericWriter.InContainerSize.process (toSizeT a.length) os false)

/-! ## Top-level verbs -/

/-- The verb `write_item(os, item, writeClassId)`; `rule` is the codec of the category
of `Item`. -/
def write_item {T : Type} (rule : WriteRule T) (os : OStream) (item : T)
    (writeClassId : Bool) : Bool × OStream :=
  process_const_item rule item os writeClassId

/-- The verb `restore_item(is, item, readClassId)`; `readIntoPtr` is the rule of the
category of `Item`. Returns the target and the stream as the call leaves
them. -/
def restore_item {T : Type} (readIntoPtr : ReadIntoPtr T) (is : IStream)
    (item : Option T) (readClassId : Bool) : Except Raised (Option T × IStream) :=
  match item with
  | none => .error .assertFailed
  | some _ =>
    match GenericReader.ISPOINTER.process readIntoPtr item is [] readClassId with
    | .error e => .error e
    | .ok r =>
      if r.str.fail then
        .error (.IOReadFailure "In gs::restore_item: input stream failure")
      else if !r.status then
        .error (.IOInvalidData "In gs::restore_item: invalid input stream data")
      else .ok (r.target, r.str)

/-- The verb `read_item<Item>(is, readClassId)`; returns the pointer `ptr` holds and
the stream as the call leaves it. -/
def read_item {T : Type} (readIntoPtr : ReadIntoPtr T) (is : IStream)
    (readClassId : Bool) : Except Raised (Option T × IStream) :=
  match GenericReader.ISNULLPOINTER.process readIntoPtr none is [] readClassId with
  | .error e => .error e
  | .ok r =>
    if r.str.fail then
      .error (.IOReadFailure "In gs::read_item: input stream failure")
    else if !r.status || r.target.isNone then
      .error (.IOInvalidData "In gs::read_item: invalid input stream data")
    else .ok (r.target, r.str)

mutual
/-- Whether an identity fits its wire form: the name and the template
parameter list have a length a `std::size_t` holds, the version is an
`unsigned`, and so for every template parameter. -/
def ClassId.wf : ClassId → Bool
  | .mk n v ps =>
    decide (n.length < 2 ^ 64) && decide (v < 2 ^ 32) && decide (ps.length < 2 ^ 64)
      && ClassId.wfList ps
/-- Every identity of the list fits its wire form. -/
def ClassId.wfList : List ClassId → Bool
  | [] => true
  | p :: ps => p.wf && ClassId.wfList ps
end

/-! ## Pointer rules, arrays and user types -/

/-- Rule `GenericWriter<Stream, State, Ptr, Int2Type<ISPOINTER>>::process`;
`pointee` is the codec of the pointee type. The result is how the call ends
(a `bool`, or the failed `assert(ptr)`) and the stream as the call leaves
it. -/
def GenericWriter.ISPOINTER.process {T : Type} (pointee : WriteRule T) (ptr : Option T)
    (os : OStream) (processClassId : Bool) : Except Raised Bool × OStream :=
  match ptr with
  | none => (.error .assertFailed, os)
  | some v =>
    let r := process_const_item pointee v os processClassId
    (.ok r.1, r.2)

/-- Rule `GenericWriter<Stream, State, Ptr, Int2Type<ISSHAREDPTR>>::process`;
a shared pointer is an `Option` as a bare pointer is, `ptr.get()` being null
for `none`. -/
def GenericWriter.ISSHAREDPTR.process {T : Type} (pointee : WriteRule T) (ptr : Option T)
    (os : OStream) (processClassId : Bool) : Except Raised Bool × OStream :=
  match ptr with
  | none => (.error .assertFailed, os)
  | some v =>
    let r := process_const_item pointee v os processClassId
    (.ok r.1, r.2)

/-- Rule `GenericReader<Stream, State, ShPtr, Int2Type<ISSHAREDPTR>>::process`;
`readIntoPtr` is the rule the null-pointer switch selects for the pointee. -/
def GenericReader.ISSHAREDPTR.process {T : Type} (readIntoPtr : ReadIntoPtr T)
    (a : Option T) (str : IStream) (s : State) (processClassId : Bool) :
    Except Raised (Out (Option T)) :=
  match GenericReader.ISNULLPOINTER.process readIntoPtr none str s processClassId with
  | .error e => .error e
  | .ok r =>
    if r.status then
      match r.target with
      | none => .error .assertFailed
      | some v => .ok ⟨true, some v, r.str, r.state⟩
    else .ok ⟨false, a, r.str, r.state⟩

/-- Rule `GenericReader<Stream, State, T, Int2Type<ISHEAPREADABLE>>::readIntoPtr`;
`read` is the static factory `T::read(id, is)` of the type, which hands back
a pointer or null and the stream as it leaves it. Copy assignment of `T` is
a plain copy. -/
def GenericReader.ISHEAPREADABLE.readIntoPtr {T : Type}
    (read : ClassId → IStream → Except Raised (Option T × IStream)) (ptr : Option T)
    (str : IStream) (s : State) (processClassId : Bool) : Except Raised (Out (Option T)) :=
  let rb : Except Raised (Option T × IStream) :=
    if processClassId then read (ClassId.read str).1 (ClassId.read str).2
    else
      match s.getLast? with
      | none => .error .assertFailed
      | some back => read back str
  match rb with
  | .error e => .error e
  | .ok (readback, str1) =>
    match readback with
    | some v => .ok ⟨true, some v, str1, s⟩
    | none => .ok ⟨false, ptr, str1, s⟩

/-- The view `ArrayAdaptor<Item>(items, length)` of `ArrayAdaptor.hh`: the
storage at `items` and the number of items to process. -/
structure ArrayAdaptor (T : Type) where
  items : List T
  length : Nat

/-- The verb `write_array(os, items, length)`; `rule` is the codec
`process_const_item` selects for the array view. -/
def write_array {T : Type} (rule : WriteRule (ArrayAdaptor T)) (os : OStream)
    (items : List T) (length : Nat) : Bool × OStream :=
  process_const_item rule ⟨items, length⟩ os false

/-- The verb `read_array(is, items, length)`; `rule` is the codec `process_item`
selects for the array view. Returns the storage and the stream as the call
leaves them. -/
def read_array {T : Type} (rule : ReadRule (ArrayAdaptor T)) (is : IStream)
    (items : List T) (length : Nat) : Except Raised (List T × IStream) :=
  match process_item rule ⟨items, length⟩ is [] false with
  | .error e => .error e
  | .ok r =>
    if r.str.fail then
      .error (.IOReadFailure "In gs::read_array: input stream failure")
    else if !r.status then
      .error (.IOInvalidData "In gs::read_array: invalid input stream data")
    else .ok (r.target.items, r.str)

/-- Modelled from the spec: `process_item` of `ProcessItem.hh` on the array
view of POD items, "reads exactly `length` contiguous items into
caller-supplied storage", without length and without identity tag. -/
def process_item_ArrayPOD {T : Type} [POD T] (adap : ArrayAdaptor T) (is : IStream)
    (state : State) (_ : Bool) : Except Raised (Out (ArrayAdaptor T)) :=
  let q := read_pod_array is (adap.items.take adap.length) adap.length
  .ok ⟨!q.2.fail, ⟨q.1 ++ adap.items.drop adap.length, adap.length⟩, q.2, state⟩

/-! ## Pure heap-readable and place-readable rules -/

/-- Rule `GenericReader<Stream, State, T, Int2Type<ISPUREHEAPREADABLE>>::readIntoPtr`;
`read` is the static factory `T::read(id, is)` of the type. -/
def GenericReader.ISPUREHEAPREADABLE.readIntoPtr {T : Type}
    (read : ClassId → IStream → Except Raised (Option T × IStream)) (ptr : Option T)
    (str : IStream) (s : State) (processClassId : Bool) : Except Raised (Out (Option T)) :=
  let rb : Except Raised (Option T × IStream) :=
    if processClassId then read (ClassId.read str).1 (ClassId.read str).2
    else
      match s.getLast? with
      | none => .error .assertFailed
      | some back => read back str
  match rb with
  | .error e => .error e
  | .ok (readback, str1) =>
    match readback with
    | some v =>
      match ptr with
      | some _ => .error .assertFailed
      | none => .ok ⟨true, some v, str1, s⟩
    | none => .ok ⟨false, ptr, str1, s⟩

/-- Rule `GenericReader<Stream, State, T, Int2Type<ISPLACEREADABLE>>::readIntoPtr`;
`restore` is the static `T::restore(id, is, target)` of the type, which hands
back the target and the stream as it leaves them, and `fresh` is the value
`new T()` holds. -/
def GenericReader.ISPLACEREADABLE.readIntoPtr {T : Type}
    (restore : ClassId → IStream → T → Except Raised (T × IStream)) (fresh : T)
    (ptr : Option T) (str : IStream) (s : State) (processClassId : Bool) :
    Except Raised (Out (Option T)) :=
  let myptr : T := fresh
  let r : Except Raised (T × IStream) :=
    if processClassId then
      restore (ClassId.read str).1 (ClassId.read str).2 (ptr.getD myptr)
    else
      match s.getLast? with
      | none => .error .assertFailed
      | some back => restore back str (ptr.getD myptr)
  match r with
  | .error e => .error e
  | .ok (v, str1) => .ok ⟨true, some v, str1, s⟩

/-! ## Element cycle -/

/-- The index of the element rule in
`GenericReader<Stream, State, Container, InContainerCycle>::process`:
`M::IsPointer * 1 + M::IsSharedPtr * 2 + M::IsHeapReadable * 3 +
!(M::IsPointer || M::IsSharedPtr || M::IsHeapReadable) * 4`. -/
def GenericReader.InContainerCycle.index (isPointer isSharedPtr isHeapReadable : Bool) :
    Nat :=
  isPointer.toNat * 1 + isSharedPtr.toNat * 2 + isHeapReadable.toNat * 3 +
    (!(isPointer || isSharedPtr || isHeapReadable)).toNat * 4

/-- An element rule `process2(obj, is, st, itemN, Int2Type<N>())` of the
element cycle on a container type `C`. -/
abbrev CycleRule (C : Type) := C → IStream → State → Nat → Except Raised (Out C)

/-- Rule `process2` of the element cycle for `Int2Type<1>`, the item being a
bare pointer; `insert` is `InsertContainerItem<Container>::insert` and
`readIntoPtr` the rule the null-pointer switch selects for the pointee. -/
def GenericReader.InContainerCycle.process2_1 {C P : Type}
    (insert : C → Option P → Nat → C) (readIntoPtr : ReadIntoPtr P) (obj : C)
    (is : IStream) (st : State) (itemN : Nat) : Except Raised (Out C) :=
  match GenericReader.ISNULLPOINTER.process readIntoPtr none is st true with
  | .error e => .error e
  | .ok r =>
    if r.status then
      match r.target with
      | none => .error .assertFailed
      | some v => .ok ⟨true, insert obj (some v) itemN, r.str, r.state⟩
    else .ok ⟨false, obj, r.str, r.state⟩

/-- Rule `process2` of the element cycle for `Int2Type<2>`, the item being a
shared pointer, which is an `Option` as a bare pointer is. -/
def GenericReader.InContainerCycle.process2_2 {C P : Type}
    (insert : C → Option P → Nat → C) (readIntoPtr : ReadIntoPtr P) (obj : C)
    (is : IStream) (st : State) (itemN : Nat) : Except Raised (Out C) :=
  match GenericReader.ISNULLPOINTER.process readIntoPtr none is st true with
  | .error e => .error e
  | .ok r =>
    if r.status then
      match r.target with
      | none => .error .assertFailed
      | some v => .ok ⟨true, insert obj (some v) itemN, r.str, r.state⟩
    else .ok ⟨false, obj, r.str, r.state⟩

/-- Rule `process2` of the element cycle for `Int2Type<3>`, the item type
being heap-readable; `read` is its static factory `item_type::read(id, is)`. -/
def GenericReader.InContainerCycle.process2_3 {C I : Type} (insert : C → I → Nat → C)
    (read : ClassId → IStream → Except Raised (Option I × IStream)) (obj : C)
    (is : IStream) (st : State) (itemN : Nat) : Except Raised (Out C) :=
  match st.getLast? with
  | none => .error .assertFailed
  | some back =>
    match read back is with
    | .error e => .error e
    | .ok (ptr, is1) =>
      match ptr with
      | some v => .ok ⟨true, insert obj v itemN, is1, st⟩
      | none => .ok ⟨false, obj, is1, st⟩

/-- Rule `process2` of the element cycle for `Int2Type<4>`, the item being
neither a pointer nor heap-readable; `fresh` is the default-constructed
`NCType item` and `readIntoPtr` the rule the pointer switch selects for
it. -/
def GenericReader.InContainerCycle.process2_4 {C I : Type} (insert : C → I → Nat → C)
    (readIntoPtr : ReadIntoPtr I) (fresh : I) (obj : C) (is : IStream) (st : State)
    (itemN : Nat) : Except Raised (Out C) :=
  match GenericReader.ISPOINTER.process readIntoPtr (some fresh) is st false with
  | .error e => .error e
  | .ok r =>
    if r.status then .ok ⟨true, insert obj (r.target.getD fresh) itemN, r.str, r.state⟩
    else .ok ⟨false, obj, r.str, r.state⟩

/-- Rule `GenericReader<Stream, State, Container, InContainerCycle>::process`;
`process2` is the overload set, by the `N` of its `Int2Type<N>` argument. -/
def GenericReader.InContainerCycle.process {C : Type}
    (isPointer isSharedPtr isHeapReadable : Bool) (process2 : Nat → CycleRule C) (obj : C)
    (is : IStream) (st : State) (itemN : Nat) : Except Raised (Out C) :=
  process2 (GenericReader.InContainerCycle.index isPointer isSharedPtr isHeapReadable)
    obj is st itemN

/-- Rule `GenericReader<Stream, State, T, Int2Type<ISPAIR>>::readIntoPtr`
together with the caller's identity stack `*s` as the call leaves it, by
return or by raise. The rule calls `s->empty()` and `s->back()` and hands the
field rules `&itemIds[0]` and `&itemIds[1]`. -/
def GenericReader.ISPAIR.readIntoPtrStack {A B : Type} (current : ClassId)
    (readFirst : ReadRule A) (readSecond : ReadRule B) (fresh : A × B)
    (ptr : Option (A × B)) (str : IStream) (s : State) (processClassId : Bool) :
    Except Raised (Out (Option (A × B))) × State :=
  let myptr : A × B := fresh
  let ids : Except Raised (List State × IStream) × State :=
    if processClassId then
      let pairId := ClassId.read str
      match current.ensureSameName pairId.1 with
      | .error e => (.error e, s)
      | .ok _ =>
        if pairId.1.templateParameters.length = 2 then
          (.ok (pairId.1.templateParameters, pairId.2), s)
        else (.error .assertFailed, s)
    else
      match s.getLast? with
      | none => (.error .assertFailed, s)
      | some back =>
        if back.templateParameters.length ≠ 2 then
          (.error (.IOInvalidData
            ("In gs::GenericReader::readIntoPtr: bad class id for std::pair on the class id stack: "
              ++ back.id)), s)
        else (.ok (back.templateParameters, str), s)
  match ids with
  | (.error e, s1) => (.error e, s1)
  | (.ok (itemIds, str1), s1) =>
    let p := ptr.getD myptr
    match process_item readFirst p.1 str1 (itemIds.getD 0 []) false with
    | .error e => (.error e, s1)
    | .ok r1 =>
      if r1.status then
        match process_item readSecond p.2 r1.str (itemIds.getD 1 []) false with
        | .error e => (.error e, s1)
        | .ok r2 =>
          if r2.status then (.ok ⟨true, some (r1.target, r2.target), r2.str, s1⟩, s1)
          else (.ok ⟨false, ptr.map (fun _ => (r1.target, r2.target)), r2.str, s1⟩, s1)
      else (.ok ⟨false, ptr.map (fun _ => (r1.target, p.2)), r1.str, s1⟩, s1)

/-! ## The POD read rule over addresses -/

/-- The objects of type `T` in memory: what each live address holds. -/
abbrev Store (T : Type) := Nat → Option T

/-- The store after the object at address `p` is given the value `v`. -/
def Store.set {T : Type} (m : Store T) (p : Nat) (v : T) : Store T :=
  fun a => if a = p then some v else m a

/-- The store after the object at address `p` is deleted. -/
def Store.erase {T : Type} (m : Store T) (p : Nat) : Store T :=
  fun a => if a = p then none else m a

/-- Rule `GenericReader<Stream, State, T, Int2Type<ISPOD>>::readIntoPtr` with
`T *&ptr` as an address (`none` is null) into a store: `new T()` yields the
address `fresh`, and the `CPP11_auto_ptr` deletes that object when the rule
returns false. The result carries the pointer and the store as the call
leaves them. -/
def GenericReader.ISPOD.readIntoPtrAt {T : Type} [POD T] (current : ClassId)
    (mem : Store T) (fresh : Nat) (ptr : Option Nat) (str : IStream) (s : State)
    (processClassId : Bool) : Except Raised (Out (Option Nat) × Store T) :=
  let mem1 : Store T := if ptr.isNone then mem.set fresh POD.init else mem
  match (if processClassId then
      (current.ensureSameName (ClassId.read str).1).map (fun _ => (ClassId.read str).2)
    else .ok str) with
  | .error e => .error e
  | .ok str1 =>
    let dest := ptr.getD fresh
    let r := read_pod str1 ((mem1 dest).getD POD.init)
    let mem2 := mem1.set dest r.1
    if r.2.fail then .ok (⟨false, ptr, r.2, s⟩, if ptr.isNone then mem2.erase fresh else mem2)
    else .ok (⟨true, some dest, r.2, s⟩, mem2)

/-! ## Heap-readable and place-readable rules over addresses -/

/-- Rule `GenericReader<Stream, State, T, Int2Type<ISHEAPREADABLE>>::readIntoPtr`
with `T *&ptr` as an address into a store; the object the factory hands back
lives at the address `fresh`. With a non-null `ptr` the object at `ptr` is
assigned a copy and the object at `fresh` is deleted; with a null `ptr` the
pointer becomes `fresh`. -/
def GenericReader.ISHEAPREADABLE.readIntoPtrAt {T : Type}
    (read : ClassId → IStream → Except Raised (Option T × IStream)) (mem : Store T)
    (fresh : Nat) (ptr : Option Nat) (str : IStream) (s : State) (processClassId : Bool) :
    Except Raised (Out (Option Nat) × Store T) :=
  let rb : Except Raised (Option T × IStream) :=
    if processClassId then read (ClassId.read str).1 (ClassId.read str).2
    else
      match s.getLast? with
      | none => .error .assertFailed
      | some back => read back str
  match rb with
  | .error e => .error e
  | .ok (readback, str1) =>
    match readback with
    | some v =>
      let mem1 := mem.set fresh v
      match ptr with
      | some p => .ok (⟨true, some p, str1, s⟩, (mem1.set p v).erase fresh)
      | none => .ok (⟨true, some fresh, str1, s⟩, mem1)
    | none => .ok (⟨false, ptr, str1, s⟩, mem)

/-- Rule `GenericReader<Stream, State, T, Int2Type<ISPLACEREADABLE>>::readIntoPtr`
with `T *&ptr` as an address into a store: `new T()` yields the address
`fresh` holding `init`, and `restore` fills the object at `ptr`, or at
`fresh` when `ptr` is null. -/
def GenericReader.ISPLACEREADABLE.readIntoPtrAt {T : Type}
    (restore : ClassId → IStream → T → Except Raised (T × IStream)) (init : T)
    (mem : Store T) (fresh : Nat) (ptr : Option Nat) (str : IStream) (s : State)
    (processClassId : Bool) : Except Raised (Out (Option Nat) × Store T) :=
  let mem1 : Store T := if ptr.isNone then mem.set fresh init else mem
  let dest := ptr.getD fresh
  let r : Except Raised (T × IStream) :=
    if processClassId then
      restore (ClassId.read str).1 (ClassId.read str).2 ((mem1 dest).getD init)
    else
      match s.getLast? with
      | none => .error .assertFailed
      | some back => restore back str ((mem1 dest).getD init)
  match r with
  | .error e => .error e
  | .ok (v, str1) => .ok (⟨true, some dest, str1, s⟩, mem1.set dest v)

/-! ## Identities and values used in the examples -/

/-- Chars of a string literal. -/
def chars (s : String) : List Byte := s.toList.map Char.toNat

/-- An identity for `int`. -/
def intId : ClassId := .mk (chars "int") 0 []

/-- An identity for `unsigned`. -/
def unsignedId : ClassId := .mk (chars "unsigned") 0 []

/-- An identity for `std::string`. -/
def stringId : ClassId := .mk (chars "std::string") 0 []

/-- An identity for `std::pair<int, std::string>`. -/
def pairIntStringId : ClassId := .mk (chars "std::pair") 0 [intId, stringId]

/-- An identity for `std::vector<int>`. -/
def vectorIntId : ClassId := .mk (chars "std::vector") 0 [intId]

/-- The `int` 5. -/
def five : CInt := ⟨5, by decide⟩

/-- The `int` 7. -/
def seven : CInt := ⟨7, by decide⟩

/-- A store with one `int` holding 7 at address 1. -/
def storeSevenAtOne : Store CInt := fun a => if a = 1 then some seven else none

/-- A factory `T::read(id, is)` for the examples: an `int` is read raw from
the stream, and the result is null when the stream fails. -/
def readIntFactory (_ : ClassId) (is : IStream) : Except Raised (Option CInt × IStream) :=
  let r := read_pod is (toCInt 0)
  if r.2.fail then .ok (none, r.2) else .ok (some r.1, r.2)

/-- A `T::restore(id, is, target)` for the examples: an `int` is read raw
from the stream into the target. -/
def restoreInt (_ : ClassId) (is : IStream) (target : CInt) :
    Except Raised (CInt × IStream) :=
  .ok (read_pod is target)

/-- The insertion `InsertContainerItem<std::vector<T>>::insert` for the
examples: the item is appended. -/
def pushBack {T : Type} (obj : List T) (item : T) (_ : Nat) : List T := obj ++ [item]

/-! ## Sequence containers on the general path -/

/-- Modelled from the spec: the loop of `ProcessItem.hh` over the elements of
a container, "for each element ... apply the matching rule": the element
rule `cycle` run for `n` items from item number `itemN` on; it stops at the
first false result and at a raise. -/
def cycleItems {C : Type} (cycle : CycleRule C) :
    Nat → Nat → C → IStream → State → Except Raised (Out C)
  | 0, _, obj, is, st => .ok ⟨true, obj, is, st⟩
  | n + 1, itemN, obj, is, st =>
    match cycle obj is st itemN with
    | .error e => .error e
    | .ok r =>
      if r.status then cycleItems cycle n (itemN + 1) r.target r.str r.state
      else .ok r

/-- Modelled from the spec: `process_const_item` of `ProcessItem.hh` on a
sequence container off the contiguous-POD fast path, the protocol of the
container codec: header, size ("raw integer size written as a POD value"),
each element in order by the codec of its type without identity tag,
footer. -/
def process_const_item_Container {T : Type} (current itemId : ClassId)
    (isPOD isContiguous : Bool) (writeItem : WriteRule T) (obj : List T) (os : OStream)
    (processClassId : Bool) : Bool × OStream :=
  let h := GenericWriter.InContainerHeader.process current itemId isPOD isContiguous os
    processClassId
  if h.1 then
    let sz := GenericWriter.InContainerSize.process (toSizeT obj.length) h.2 processClassId
    if sz.1 then
      let b := obj.foldl
        (fun acc x => if acc.1 then process_const_item writeItem x acc.2 false else acc)
        (true, sz.2)
      let f := GenericWriter.InContainerFooter.process b.2
      (f.1 && b.1, f.2)
    else (false, sz.2)
  else (false, h.2)

/-- Modelled from the spec: `process_item` of `ProcessItem.hh` on a sequence
container off the contiguous-POD fast path: header, size, the element cycle
once for each of the elements the size announces, footer. -/
def process_item_Container {T : Type} (current : ClassId) (isPOD isContiguous : Bool)
    (cycle : CycleRule (List T)) (obj : List T) (is : IStream) (state : State)
    (processClassId : Bool) : Except Raised (Out (List T)) :=
  match GenericReader.InContainerHeader.process current isPOD isContiguous obj is state
      processClassId with
  | .error e => .error e
  | .ok h =>
    if h.status then
      match GenericReader.InContainerSize.process (toSizeT 0) h.str h.state
          processClassId with
      | .error e => .error e
      | .ok sz =>
        match (if sz.status then cycleItems cycle sz.target.val 0 h.target sz.str sz.state
            else .ok ⟨false, h.target, sz.str, sz.state⟩) with
        | .error e => .error e
        | .ok b =>
          match GenericReader.InContainerFooter.process isPOD isContiguous b.target b.str
              b.state with
          | .error e => .error e
          | .ok f => .ok ⟨f.status && b.status, f.target, f.str, f.state⟩
    else .ok ⟨false, h.target, h.str, h.state⟩

/-- Modelled from the spec: `process_const_item` of `ProcessItem.hh` on a
sequence container of POD elements such as `int`: the contiguous-POD fast
path when the storage is contiguous (`std::vector`), the general path
otherwise (`std::list`, `std::deque`). -/
def process_const_item_PODSequence {T : Type} [POD T] (current itemId : ClassId)
    (isContiguous : Bool) (obj : List T) (os : OStream) (processClassId : Bool) :
    Bool × OStream :=
  if isContiguous then process_const_item_PODArray current itemId obj os processClassId
  else
    process_const_item_Container current itemId true false (GenericWriter.ISPOD.process itemId)
      obj os processClassId

/-- Modelled from the spec: `process_item` of `ProcessItem.hh` on a sequence
container of POD elements: the contiguous-POD fast path when the storage is
contiguous, otherwise the general path, whose element cycle takes the rule
of index 4 (the element is neither a pointer nor heap-readable) with the POD
rule and appends each element. -/
def process_item_PODSequence {T : Type} [POD T] (current itemId : ClassId)
    (isContiguous : Bool) (obj : List T) (is : IStream) (state : State)
    (processClassId : Bool) : Except Raised (Out (List T)) :=
  if isContiguous then process_item_PODArray current obj is state processClassId
  else
    process_item_Container current true false
      (GenericReader.InContainerCycle.process false false false
        (fun _ =>
          GenericReader.InContainerCycle.process2_4 pushBack
            (GenericReader.ISPOD.readIntoPtr itemId) POD.init))
      obj is state processClassId

/-- The insertion `InsertContainerItem<ArrayAdaptor<T>>::insert` for the
examples: the item is assigned to the slot `itemN` of the storage. -/
def assignAt {T : Type} (obj : List T) (item : T) (itemN : Nat) : List T :=
  obj.set itemN item

/-- Modelled from the spec: `process_item` of `ProcessItem.hh` on the array
view of items that are not POD, the protocol of the container codec without
the size ("no length prefix"): header, the element cycle once for each of
the `length` items, footer. The storage is the caller's and is not
cleared. -/
def process_item_Array {T : Type} (current : ClassId) (cycle : CycleRule (List T))
    (adap : ArrayAdaptor T) (is : IStream) (state : State) (processClassId : Bool) :
    Except Raised (Out (ArrayAdaptor T)) :=
  match GenericReader.InContainerHeader.process current false true adap.items is state
      processClassId with
  | .error e => .error e
  | .ok h =>
    if h.status then
      match cycleItems cycle adap.length 0 adap.items h.str h.state with
      | .error e => .error e
      | .ok b =>
        match GenericReader.InContainerFooter.process false true b.target b.str b.state with
        | .error e => .error e
        | .ok f => .ok ⟨f.status && b.status, ⟨f.target, adap.length⟩, f.str, f.state⟩
    else .ok ⟨false, adap, h.str, h.state⟩

/-- An identity for `std::list<int>`. -/
def listIntId : ClassId := .mk (chars "std::list") 0 [intId]

/-- An identity for the array view of `std::pair<int, std::string>`. -/
def arrayPairId : ClassId := .mk (chars "gs::ArrayAdaptor") 0 [pairIntStringId]

/-- The element rule of a sequence of `std::pair<int, std::string>`: the rule
of index 4 with the pair rule, the item assigned to its slot. -/
def pairElementRule : CycleRule (List (CInt × List Byte)) :=
  GenericReader.InContainerCycle.process false false false
    (fun _ =>
      GenericReader.InContainerCycle.process2_4 assignAt
        (GenericReader.ISPAIR.readIntoPtr pairIntStringId (GenericReader.ISPOD.process intId)
          (GenericReader.ISSTRING.process stringId) (toCInt 0, []))
        (toCInt 0, []))

/-! # Properties -/

/-! ## Top-level verbs: how results become errors -/

/-- C1, as the code has it: on a non-null target, whenever the read rule of
the item returns, `restore_item` raises `IOReadFailure` exactly when the
stream is in its fail state after the read; otherwise it raises
`IOInvalidData` exactly when the rule returned false; otherwise it returns
normally, with the target and the stream as the rule left them. A failed
stream wins over a false result. An error the rule itself raises, or an
assertion it fails, is not handled: `restore_item` ends the same way. So
`restore_item` returns normally exactly when the rule returned true on a
stream that is not failed. -/
theorem restore_item_outcome {T : Type} (readIntoPtr : ReadIntoPtr T) (is : IStream)
    (t : T) (readClassId : Bool) :
    (∀ r, GenericReader.ISPOINTER.process readIntoPtr (some t) is [] readClassId = .ok r →
      ((∃ what, restore_item readIntoPtr is (some t) readClassId
          = .error (.IOReadFailure what)) ↔ r.str.fail = true) ∧
      (r.str.fail = false →
        ((∃ what, restore_item readIntoPtr is (some t) readClassId
          = .error (.IOInvalidData what)) ↔ r.status = false)) ∧
      (r.str.fail = false → r.status = true →
        restore_item readIntoPtr is (some t) readClassId = .ok (r.target, r.str)) ∧
      (r.str.fail = true → r.status = false →
        restore_item readIntoPtr is (some t) readClassId
          = .error (.IOReadFailure "In gs::restore_item: input stream failure"))) ∧
    (∀ e, GenericReader.ISPOINTER.process readIntoPtr (some t) is [] readClassId = .error e →
      restore_item readIntoPtr is (some t) readClassId = .error e) ∧
    (∀ x, restore_item readIntoPtr is (some t) readClassId = .ok x ↔
      ∃ r, GenericReader.ISPOINTER.process readIntoPtr (some t) is [] readClassId = .ok r ∧
        r.str.fail = false ∧ r.status = true ∧ (r.target, r.str) = x) := by
  unfold restore_item
  refine ⟨?_, ?_, ?_⟩
  · intro r h
    rw [h]
    cases hf : r.str.fail <;> cases hs : r.status <;> simp [hf, hs]
  · intro e h
    rw [h]
  · intro x
    cases h : GenericReader.ISPOINTER.process readIntoPtr (some t) is [] readClassId with
    | error e => simp
    | ok r =>
      cases hf : r.str.fail <;> cases hs : r.status <;> simp [hf, hs]

/-- Restoring an `int` from a stream that holds two chars only: the POD rule
returns false on a failed stream and `restore_item` raises `IOReadFailure`.
Restoring it from the four chars of 5 over a target holding 7: the rule
returns true and `restore_item` returns the target holding 5. -/
theorem restore_item_outcome_witness :
    GenericReader.ISPOINTER.process (GenericReader.ISPOD.readIntoPtr intId) (some five)
        (IStream.ofBytes [1, 2]) [] false
      = .ok ⟨false, some (toCInt 513), ⟨[], true⟩, []⟩ ∧
    restore_item (GenericReader.ISPOD.readIntoPtr intId) (IStream.ofBytes [1, 2])
        (some five) false
      = .error (.IOReadFailure "In gs::restore_item: input stream failure") ∧
    GenericReader.ISPOINTER.process (GenericReader.ISPOD.readIntoPtr intId) (some seven)
        (IStream.ofBytes [5, 0, 0, 0]) [] false
      = .ok ⟨true, some five, ⟨[], false⟩, []⟩ ∧
    restore_item (GenericReader.ISPOD.readIntoPtr intId) (IStream.ofBytes [5, 0, 0, 0])
        (some seven) false
      = .ok (some five, ⟨[], false⟩) :=
  ⟨rfl,
    ((restore_item_outcome (GenericReader.ISPOD.readIntoPtr intId) (IStream.ofBytes [1, 2])
      five false).1 ⟨false, some (toCInt 513), ⟨[], true⟩, []⟩ rfl).2.2.2 rfl rfl,
    rfl,
    ((restore_item_outcome (GenericReader.ISPOD.readIntoPtr intId)
      (IStream.ofBytes [5, 0, 0, 0]) seven false).1 ⟨true, some five, ⟨[], false⟩, []⟩
      rfl).2.2.1 rfl rfl⟩

/-- Restoring an `unsigned` from the healthy stream `write_item` produces
for the `int` 5 with its identity tag: the read rule raises `IOInvalidData`
at the name check, so it does not return false, the stream is not failed
after the identity is read, and `restore_item` ends on that `IOInvalidData`.
Restoring a pair without identity tag ends on the failed
`assert(!s->empty())` of the pair rule: no error of either kind and no
normal return. -/
theorem restore_item_invalid_data_without_false :
    GenericReader.ISPOINTER.process (GenericReader.ISPOD.readIntoPtr unsignedId)
        (some (toUnsigned 0))
        (IStream.ofBytes
          (write_item (GenericWriter.ISPOD.process intId) OStream.empty five true).2.out)
        [] true
      = .error (.IOInvalidData "In gs::ClassId::ensureSameName: class name mismatch") ∧
    (¬ ∃ r, GenericReader.ISPOINTER.process (GenericReader.ISPOD.readIntoPtr unsignedId)
        (some (toUnsigned 0))
        (IStream.ofBytes
          (write_item (GenericWriter.ISPOD.process intId) OStream.empty five true).2.out)
        [] true = .ok r) ∧
    (ClassId.read (IStream.ofBytes
        (write_item (GenericWriter.ISPOD.process intId) OStream.empty five true).2.out)).2.fail
      = false ∧
    restore_item (GenericReader.ISPOD.readIntoPtr unsignedId)
        (IStream.ofBytes
          (write_item (GenericWriter.ISPOD.process intId) OStream.empty five true).2.out)
        (some (toUnsigned 0)) true
      = .error (.IOInvalidData "In gs::ClassId::ensureSameName: class name mismatch") ∧
    restore_item
        (GenericReader.ISPAIR.readIntoPtr pairIntStringId (GenericReader.ISPOD.process intId)
          (GenericReader.ISSTRING.process stringId) (toCInt 0, []))
        (IStream.ofBytes [5, 0, 0, 0, 1, 0, 0, 0, 0, 0, 0, 0, 120]) (some (toCInt 0, []))
        false
      = .error .assertFailed := by
  refine ⟨rfl, ?_, by decide, rfl, rfl⟩
  rintro ⟨r, h⟩
  have h2 : (Except.error
      (Raised.IOInvalidData "In gs::ClassId::ensureSameName: class name mismatch") :
      Except Raised (Out (Option Unsigned))) = .ok r := h
  cases h2

/-- C3: `write_item` on a POD value returns a `bool` (it has no raising
path) that is true exactly when the identity write succeeded or was not
requested and the stream is not in its fail state after the payload write;
it is false whenever the stream is failed afterwards. -/
theorem write_item_pod_status {T : Type} [POD T] (current : ClassId) (v : T)
    (os : OStream) (writeIdentity : Bool) :
    ((write_item (GenericWriter.ISPOD.process current) os v writeIdentity).1 = true ↔
      ((writeIdentity = false ∨ (current.write os).1 = true) ∧
        (write_item (GenericWriter.ISPOD.process current) os v writeIdentity).2.fail
          = false)) ∧
    ((write_item (GenericWriter.ISPOD.process current) os v writeIdentity).2.fail = true →
      (write_item (GenericWriter.ISPOD.process current) os v writeIdentity).1 = false) := by
  unfold write_item process_const_item GenericWriter.ISPOD.process
  cases writeIdentity <;> simp
  intro h _
  exact h

/-! ## Streams and raw codecs -/

theorem leBytes_length (k n : Nat) : (leBytes k n).length = k := by
  induction k generalizing n with
  | zero => rfl
  | succ k ih => simp [leBytes, ih]

theorem leValue_leBytes (k n : Nat) : leValue (leBytes k n) = n % 256 ^ k := by
  induction k generalizing n with
  | zero => simp [leBytes, leValue, Nat.mod_one]
  | succ k ih =>
    simp only [leBytes, leValue, ih, Nat.mod_mod]
    rw [pow_succ, Nat.mul_comm (256 ^ k) 256, Nat.mod_mul]

theorem OStream.write_write (os : OStream) (a b : List Byte) :
    (os.write a).write b = os.write (a ++ b) := by
  obtain ⟨out, room, failbit⟩ := os
  cases failbit
  · cases room with
    | none => simp [OStream.write]
    | some r =>
      simp only [OStream.write, Bool.false_eq_true, if_false, List.length_append]
      by_cases h1 : a.length ≤ r
      · simp only [h1, if_true, Bool.false_eq_true, if_false]
        by_cases h2 : b.length ≤ r - a.length
        · have h3 : a.length + b.length ≤ r := by omega
          simp [h2, h3]
          omega
        · have h3 : ¬ (a.length + b.length ≤ r) := by omega
          simp [h2, h3, List.take_append_eq_append_take, List.take_of_length_le h1]
      · have h3 : ¬ (a.length + b.length ≤ r) := by omega
        have h4 : r - a.length = 0 := by omega
        simp [h1, h3, List.take_append_eq_append_take, h4]
  · simp [OStream.write]

theorem OStream.write_on_healthy (out bs : List Byte) :
    OStream.write ⟨out, none, false⟩ bs = ⟨out ++ bs, none, false⟩ := by
  simp [OStream.write]

theorem IStream.read_front (a rest : List Byte) (n : Nat) (h : n = a.length) :
    IStream.read ⟨a ++ rest, false⟩ n = (a, ⟨rest, false⟩) := by
  subst h
  simp [IStream.read]

theorem read_pod_repr {T : Type} [POD T] (v x : T) (rest : List Byte) :
    read_pod ⟨POD.repr v ++ rest, false⟩ x = (v, ⟨rest, false⟩) := by
  unfold read_pod
  rw [IStream.read_front _ _ _ (POD.repr_length v).symm]
  have hd : (POD.repr x).drop (POD.repr v).length = [] := by
    apply List.drop_eq_nil_of_le
    rw [POD.repr_length, POD.repr_length]
  simp only [hd, List.append_nil, POD.unrepr_repr]

theorem repr_toSizeT (n : Nat) (h : n < 2 ^ 64) :
    (POD.repr (toSizeT n) : List Byte) = leBytes 8 n := by
  show leBytes 8 (n % 2 ^ 64) = leBytes 8 n
  rw [Nat.mod_eq_of_lt h]

theorem repr_toUnsigned (n : Nat) (h : n < 2 ^ 32) :
    (POD.repr (toUnsigned n) : List Byte) = leBytes 4 n := by
  show leBytes 4 (n % 2 ^ 32) = leBytes 4 n
  rw [Nat.mod_eq_of_lt h]

theorem toSizeT_val (n : Nat) (h : n < 2 ^ 64) : (toSizeT n).val = n :=
  Nat.mod_eq_of_lt h

theorem toUnsigned_val (n : Nat) (h : n < 2 ^ 32) : (toUnsigned n).val = n :=
  Nat.mod_eq_of_lt h

theorem read_string_wire (v pv rest : List Byte) (h : v.length < 2 ^ 64) :
    read_string ⟨leBytes 8 v.length ++ (v ++ rest), false⟩ pv = (v, ⟨rest, false⟩) := by
  unfold read_string
  rw [← repr_toSizeT _ h, read_pod_repr]
  simp only [IStream.fail, Bool.false_eq_true, if_false, toSizeT_val _ h]
  by_cases h0 : v.length = 0
  · have : v = [] := List.length_eq_zero.mp h0
    subst this
    simp [resize]
  · simp only [h0, if_false]
    rw [IStream.read_front _ _ _ rfl]
    have hd : (resize 0 pv v.length).drop v.length = [] := by
      apply List.drop_eq_nil_of_le
      simp only [resize, List.length_append, List.length_take, List.length_replicate]
      omega
    simp only [hd, List.append_nil]

theorem write_string_healthy (out v : List Byte) (h : v.length < 2 ^ 64) :
    write_string ⟨out, none, false⟩ v = ⟨out ++ (leBytes 8 v.length ++ v), none, false⟩ := by
  unfold write_string write_pod
  simp only [repr_toSizeT _ h, toSizeT_val _ h, OStream.write_on_healthy]
  by_cases h0 : v.length = 0
  · have : v = [] := List.length_eq_zero.mp h0
    subst this
    simp
  · simp [h0]

/-! ## The identity wire form round-trips -/

theorem ClassId.wire_length (id : ClassId) : 20 ≤ id.wire.length := by
  cases id with
  | mk n v ps =>
    simp only [ClassId.wire, List.length_append, leBytes_length]
    omega

mutual
theorem ClassId.parse_wire : ∀ (id : ClassId) (fuel : Nat) (rest : List Byte),
    id.wf = true → id.wire.length ≤ fuel →
    ClassId.parse fuel ⟨id.wire ++ rest, false⟩ = (id, ⟨rest, false⟩)
  | .mk n v ps, fuel, rest, hwf, hfuel => by
    cases fuel with
    | zero =>
      have := ClassId.wire_length (.mk n v ps)
      omega
    | succ fuel =>
      simp only [ClassId.wf, Bool.and_eq_true, decide_eq_true_eq] at hwf
      obtain ⟨⟨⟨hn, hv⟩, hps⟩, hl⟩ := hwf
      simp only [ClassId.wire, List.length_append, leBytes_length] at hfuel
      simp only [ClassId.parse, ClassId.wire, List.append_assoc]
      rw [read_string_wire _ _ _ hn]
      simp only
      rw [← repr_toUnsigned v hv, read_pod_repr]
      simp only
      rw [← repr_toSizeT ps.length hps, read_pod_repr]
      simp only [toUnsigned_val _ hv, toSizeT_val _ hps]
      rw [ClassId.parseList_wire ps fuel rest hl (by omega)]
theorem ClassId.parseList_wire : ∀ (ps : List ClassId) (fuel : Nat) (rest : List Byte),
    ClassId.wfList ps = true → (ClassId.wireList ps).length + 1 ≤ fuel →
    ClassId.parseList fuel ps.length ⟨ClassId.wireList ps ++ rest, false⟩
      = (ps, ⟨rest, false⟩)
  | [], fuel, rest, _, _ => by
    cases fuel <;> simp [ClassId.parseList, ClassId.wireList]
  | p :: ps, fuel, rest, hwf, hfuel => by
    cases fuel with
    | zero => omega
    | succ fuel =>
      simp only [ClassId.wfList, Bool.and_eq_true] at hwf
      simp only [ClassId.wireList, List.length_append] at hfuel
      have hp := ClassId.wire_length p
      simp only [ClassId.parseList, ClassId.wireList, List.length_cons, IStream.fail,
        List.append_assoc, Bool.false_eq_true, if_false]
      rw [ClassId.parse_wire p fuel _ hwf.1 (by omega)]
      simp only
      rw [ClassId.parseList_wire ps fuel rest hwf.2 (by omega)]
end

/-- Parsing an identity written in wire form yields the identity and leaves
the stream right after it. -/
theorem ClassId.read_wire (id : ClassId) (rest : List Byte) (hwf : id.wf = true) :
    ClassId.read ⟨id.wire ++ rest, false⟩ = (id, ⟨rest, false⟩) := by
  unfold ClassId.read
  apply ClassId.parse_wire _ _ _ hwf
  simp only [List.length_append]
  omega

theorem ClassId.write_id_healthy (id : ClassId) (out : List Byte) :
    id.write ⟨out, none, false⟩ = (true, ⟨out ++ id.wire, none, false⟩) := by
  simp [ClassId.write, OStream.write_on_healthy, OStream.fail]

theorem ClassId.ensureSameName_self (id : ClassId) : id.ensureSameName id = .ok () := by
  simp [ClassId.ensureSameName]

/-! ## Round trips -/

theorem write_item_pod_healthy {T : Type} [POD T] (current : ClassId) (v : T) (f : Bool) :
    write_item (GenericWriter.ISPOD.process current) OStream.empty v f
      = (true, ⟨(if f then current.wire else []) ++ POD.repr v, none, false⟩) := by
  cases f <;>
    simp [write_item, process_const_item, GenericWriter.ISPOD.process, OStream.empty,
      ClassId.write_id_healthy, write_pod, OStream.write_on_healthy, OStream.fail]

theorem readIntoPtr_pod_wire {T : Type} [POD T] (current : ClassId)
    (hwf : current.wf = true) (v : T) (ptr : Option T) (f : Bool) (st : State)
    (rest : List Byte) :
    GenericReader.ISPOD.readIntoPtr current ptr
        ⟨(if f then current.wire else []) ++ POD.repr v ++ rest, false⟩ st f
      = .ok ⟨true, some v, ⟨rest, false⟩, st⟩ := by
  cases f
  · simp [GenericReader.ISPOD.readIntoPtr, read_pod_repr, IStream.fail]
  · simp [GenericReader.ISPOD.readIntoPtr, ClassId.read_wire _ _ hwf,
      ClassId.ensureSameName_self, Except.map, read_pod_repr, IStream.fail]

/-- C4: for every POD value `v` and flag `f`, writing `v` with identity flag
`f` to an empty healthy stream succeeds, and reading the produced bytes with
the POD read rule under the same flag returns true with the value `v`, into
a caller-supplied target as well as into a null pointer; chars that follow
the value stay in the stream. -/
theorem pod_round_trip {T : Type} [POD T] (current : ClassId) (hwf : current.wf = true)
    (v target : T) (f : Bool) (st : State) (rest : List Byte) :
    (write_item (GenericWriter.ISPOD.process current) OStream.empty v f).1 = true ∧
    GenericReader.ISPOD.readIntoPtr current (some target)
        (IStream.ofBytes
          ((write_item (GenericWriter.ISPOD.process current) OStream.empty v f).2.out ++ rest))
        st f
      = .ok ⟨true, some v, IStream.ofBytes rest, st⟩ ∧
    GenericReader.ISPOD.readIntoPtr current none
        (IStream.ofBytes
          ((write_item (GenericWriter.ISPOD.process current) OStream.empty v f).2.out ++ rest))
        st f
      = .ok ⟨true, some v, IStream.ofBytes rest, st⟩ := by
  rw [write_item_pod_healthy]
  simp only [IStream.ofBytes]
  exact ⟨trivial, readIntoPtr_pod_wire current hwf v _ f st rest,
    readIntoPtr_pod_wire current hwf v _ f st rest⟩

/-- The `int` 5 written with its identity tag is read back as 5 over a
target holding 7 and into a null pointer. -/
theorem pod_round_trip_witness :
    intId.wf = true ∧
    (write_item (GenericWriter.ISPOD.process intId) OStream.empty five true).1 = true ∧
    GenericReader.ISPOD.readIntoPtr intId (some seven)
        (IStream.ofBytes
          ((write_item (GenericWriter.ISPOD.process intId) OStream.empty five true).2.out
            ++ [9]))
        [] true
      = .ok ⟨true, some five, IStream.ofBytes [9], []⟩ ∧
    GenericReader.ISPOD.readIntoPtr intId none
        (IStream.ofBytes
          ((write_item (GenericWriter.ISPOD.process intId) OStream.empty five true).2.out
            ++ [9]))
        [] true
      = .ok ⟨true, some five, IStream.ofBytes [9], []⟩ :=
  ⟨by decide, pod_round_trip intId (by decide) five seven true [] [9]⟩

theorem write_item_string_healthy (current : ClassId) (s : List Byte) (f : Bool)
    (hs : s.length < 2 ^ 64) :
    write_item (GenericWriter.ISSTRING.process current) OStream.empty s f
      = (true, ⟨(if f then current.wire else []) ++ (leBytes 8 s.length ++ s), none, false⟩) := by
  cases f <;>
    simp [write_item, process_const_item, GenericWriter.ISSTRING.process, OStream.empty,
      ClassId.write_id_healthy, write_string_healthy _ _ hs, OStream.fail]

theorem readIntoPtr_string_wire (current : ClassId) (hwf : current.wf = true)
    (s : List Byte) (hs : s.length < 2 ^ 64) (ptr : Option (List Byte)) (f : Bool)
    (st : State) (rest : List Byte) :
    GenericReader.ISSTRING.readIntoPtr current ptr
        ⟨(if f then current.wire else []) ++ (leBytes 8 s.length ++ s) ++ rest, false⟩ st f
      = .ok ⟨true, some s, ⟨rest, false⟩, st⟩ := by
  cases f
  · simp [GenericReader.ISSTRING.readIntoPtr, read_string_wire _ _ _ hs, IStream.fail]
  · simp [GenericReader.ISSTRING.readIntoPtr, ClassId.read_wire _ _ hwf,
      ClassId.ensureSameName_self, Except.map, read_string_wire _ _ _ hs, IStream.fail]

/-- C5: for every string `s` (the empty one included) and flag `f`, writing
`s` with identity flag `f` to an empty healthy stream succeeds, and reading
the produced bytes with the string read rule under the same flag returns
true with a string equal to `s`, over an existing string (whatever it held)
as well as into a null pointer. -/
theorem string_round_trip (current : ClassId) (hwf : current.wf = true) (s old : List Byte)
    (hs : s.length < 2 ^ 64) (f : Bool) (st : State) (rest : List Byte) :
    (write_item (GenericWriter.ISSTRING.process current) OStream.empty s f).1 = true ∧
    GenericReader.ISSTRING.readIntoPtr current (some old)
        (IStream.ofBytes
          ((write_item (GenericWriter.ISSTRING.process current) OStream.empty s f).2.out
            ++ rest))
        st f
      = .ok ⟨true, some s, IStream.ofBytes rest, st⟩ ∧
    GenericReader.ISSTRING.readIntoPtr current none
        (IStream.ofBytes
          ((write_item (GenericWriter.ISSTRING.process current) OStream.empty s f).2.out
            ++ rest))
        st f
      = .ok ⟨true, some s, IStream.ofBytes rest, st⟩ := by
  rw [write_item_string_healthy _ _ _ hs]
  simp only [IStream.ofBytes]
  exact ⟨trivial, readIntoPtr_string_wire current hwf s hs _ f st rest,
    readIntoPtr_string_wire current hwf s hs _ f st rest⟩

/-- The empty string written without identity tag is read back as the empty
string over a string that held "abc" and into a null pointer. -/
theorem string_round_trip_witness :
    stringId.wf = true ∧ ([] : List Byte).length < 2 ^ 64 ∧
    (write_item (GenericWriter.ISSTRING.process stringId) OStream.empty [] false).1 = true ∧
    GenericReader.ISSTRING.readIntoPtr stringId (some (chars "abc"))
        (IStream.ofBytes
          ((write_item (GenericWriter.ISSTRING.process stringId) OStream.empty [] false).2.out
            ++ []))
        [] false
      = .ok ⟨true, some [], IStream.ofBytes [], []⟩ ∧
    GenericReader.ISSTRING.readIntoPtr stringId none
        (IStream.ofBytes
          ((write_item (GenericWriter.ISSTRING.process stringId) OStream.empty [] false).2.out
            ++ []))
        [] false
      = .ok ⟨true, some [], IStream.ofBytes [], []⟩ :=
  ⟨by decide, by decide,
    string_round_trip stringId (by decide) [] (chars "abc") (by decide) false [] []⟩

theorem GenericWriter.ISPOD.pod_process_healthy {T : Type} [POD T] (current : ClassId) (v : T)
    (out : List Byte) (f : Bool) :
    GenericWriter.ISPOD.process current v ⟨out, none, false⟩ f
      = (true, ⟨out ++ ((if f then current.wire else []) ++ POD.repr v), none, false⟩) := by
  cases f <;>
    simp [GenericWriter.ISPOD.process, ClassId.write_id_healthy, write_pod,
      OStream.write_on_healthy, OStream.fail]

theorem GenericWriter.ISSTRING.string_process_healthy (current : ClassId) (s : List Byte)
    (hs : s.length < 2 ^ 64) (out : List Byte) (f : Bool) :
    GenericWriter.ISSTRING.process current s ⟨out, none, false⟩ f
      = (true, ⟨out ++ ((if f then current.wire else []) ++ (leBytes 8 s.length ++ s)),
          none, false⟩) := by
  cases f <;>
    simp [GenericWriter.ISSTRING.process, ClassId.write_id_healthy,
      write_string_healthy _ _ hs, OStream.fail]

theorem GenericReader.ISPOD.pod_process_wire {T : Type} [POD T] (current : ClassId) (v x : T)
    (st : State) (rest : List Byte) :
    GenericReader.ISPOD.process current x ⟨POD.repr v ++ rest, false⟩ st false
      = .ok ⟨true, v, ⟨rest, false⟩, st⟩ := by
  simp [GenericReader.ISPOD.process, GenericReader.ISPOD.readIntoPtr, read_pod_repr,
    IStream.fail]

theorem GenericReader.ISSTRING.string_process_wire (current : ClassId) (s x : List Byte)
    (hs : s.length < 2 ^ 64) (st : State) (rest : List Byte) :
    GenericReader.ISSTRING.process current x ⟨leBytes 8 s.length ++ (s ++ rest), false⟩ st false
      = .ok ⟨true, s, ⟨rest, false⟩, st⟩ := by
  simp [GenericReader.ISSTRING.process, GenericReader.ISSTRING.readIntoPtr,
    read_string_wire _ _ _ hs, IStream.fail]

theorem ClassId.templateParameters_length (id : ClassId) :
    id.templateParameters.length = id.params.length := by
  simp [ClassId.templateParameters]

/-- C6: for every `int` `a` and string `s`, writing the pair `(a, s)` with
its identity tag to an empty healthy stream succeeds, and reading the
produced bytes with the pair read rule with identity reading enabled returns
true with a pair whose first field is `a` and whose second field is `s`,
over an existing pair as well as into a null pointer. -/
theorem pair_int_string_round_trip (current idA idB : ClassId) (hwf : current.wf = true)
    (h2 : current.params.length = 2) (a : CInt) (s : List Byte) (hs : s.length < 2 ^ 64)
    (fresh : CInt × List Byte) (ptr : Option (CInt × List Byte)) (st : State)
    (rest : List Byte) :
    (write_item
        (GenericWriter.ISPAIR.process current (GenericWriter.ISPOD.process idA)
          (GenericWriter.ISSTRING.process idB))
        OStream.empty (a, s) true).1 = true ∧
    GenericReader.ISPAIR.readIntoPtr current (GenericReader.ISPOD.process idA)
        (GenericReader.ISSTRING.process idB) fresh ptr
        (IStream.ofBytes
          ((write_item
            (GenericWriter.ISPAIR.process current (GenericWriter.ISPOD.process idA)
              (GenericWriter.ISSTRING.process idB))
            OStream.empty (a, s) true).2.out ++ rest))
        st true
      = .ok ⟨true, some (a, s), IStream.ofBytes rest, st⟩ := by
  have hw : write_item
        (GenericWriter.ISPAIR.process current (GenericWriter.ISPOD.process idA)
          (GenericWriter.ISSTRING.process idB))
        OStream.empty (a, s) true
      = (true, ⟨current.wire ++ (POD.repr a ++ (leBytes 8 s.length ++ s)), none, false⟩) := by
    simp [write_item, process_const_item, GenericWriter.ISPAIR.process, OStream.empty,
      ClassId.write_id_healthy, GenericWriter.ISPOD.pod_process_healthy,
      GenericWriter.ISSTRING.string_process_healthy _ _ hs]
  rw [hw]
  refine ⟨rfl, ?_⟩
  simp only [IStream.ofBytes, GenericReader.ISPAIR.readIntoPtr, List.append_assoc,
    ClassId.read_wire _ _ hwf, ClassId.ensureSameName_self,
    ClassId.templateParameters_length, h2, if_true, process_item,
    GenericReader.ISPOD.pod_process_wire, GenericReader.ISSTRING.string_process_wire _ _ _ hs]

/-- The pair `(5, "x")` written with its identity tag is read back into a
null pointer as `(5, "x")`. -/
theorem pair_int_string_round_trip_witness :
    pairIntStringId.wf = true ∧ pairIntStringId.params.length = 2 ∧
    (chars "x").length < 2 ^ 64 ∧
    (write_item
        (GenericWriter.ISPAIR.process pairIntStringId (GenericWriter.ISPOD.process intId)
          (GenericWriter.ISSTRING.process stringId))
        OStream.empty (five, chars "x") true).1 = true ∧
    GenericReader.ISPAIR.readIntoPtr pairIntStringId (GenericReader.ISPOD.process intId)
        (GenericReader.ISSTRING.process stringId) (toCInt 0, []) none
        (IStream.ofBytes
          ((write_item
            (GenericWriter.ISPAIR.process pairIntStringId (GenericWriter.ISPOD.process intId)
              (GenericWriter.ISSTRING.process stringId))
            OStream.empty (five, chars "x") true).2.out ++ []))
        [] true
      = .ok ⟨true, some (five, chars "x"), IStream.ofBytes [], []⟩ :=
  ⟨by decide, by decide, by decide,
    pair_int_string_round_trip pairIntStringId intId stringId (by decide) (by decide) five
      (chars "x") (by decide) (toCInt 0, []) none [] []⟩

/-! ## Contiguous containers of POD elements -/

theorem reprArray_length {T : Type} [POD T] (xs : List T) :
    (reprArray xs).length = xs.length * POD.sizeof T := by
  induction xs with
  | nil => simp [reprArray]
  | cons x xs ih => simp [reprArray, ih, POD.repr_length, Nat.succ_mul, Nat.add_comm]

theorem unreprArray_reprArray {T : Type} [POD T] (xs : List T) (extra : List Byte) :
    unreprArray xs.length (reprArray xs ++ extra) = xs := by
  induction xs with
  | nil => simp [unreprArray]
  | cons x xs ih =>
    have h1 : (POD.repr x ++ (reprArray xs ++ extra)).take (POD.sizeof T) = POD.repr x := by
      rw [List.take_append_of_le_length (by rw [POD.repr_length]),
        List.take_of_length_le (by rw [POD.repr_length])]
    have h2 : (POD.repr x ++ (reprArray xs ++ extra)).drop (POD.sizeof T)
        = reprArray xs ++ extra := by
      rw [← POD.repr_length x, List.drop_left]
    simp only [reprArray, unreprArray, List.length_cons, List.append_assoc, h1, h2,
      POD.unrepr_repr, ih]

theorem read_pod_array_wire {T : Type} [POD T] (xs pod : List T) (rest : List Byte) :
    read_pod_array ⟨reprArray xs ++ rest, false⟩ pod xs.length = (xs, ⟨rest, false⟩) := by
  unfold read_pod_array
  rw [IStream.read_front _ _ _ (reprArray_length xs).symm]
  simp only [unreprArray_reprArray]

theorem GenericWriter.InPODArray.array_process_healthy {T : Type} [POD T] (xs : List T)
    (hlen : xs.length < 2 ^ 64) (out : List Byte) (b : Bool) :
    GenericWriter.InPODArray.process xs ⟨out, none, false⟩ b
      = (true, ⟨out ++ (leBytes 8 xs.length ++ reprArray xs), none, false⟩) := by
  unfold GenericWriter.InPODArray.process write_pod write_pod_array
  simp only [repr_toSizeT _ hlen, toSizeT_val _ hlen, OStream.write_on_healthy]
  by_cases h0 : xs.length = 0
  · have : xs = [] := List.length_eq_zero.mp h0
    subst this
    simp [reprArray, OStream.fail]
  · simp [h0, OStream.write_on_healthy, OStream.fail]

theorem GenericReader.InPODArray.array_process_wire {T : Type} [POD T] (xs old : List T)
    (hlen : xs.length < 2 ^ 64) (st : State) (b : Bool) (rest : List Byte) :
    GenericReader.InPODArray.process old
        ⟨leBytes 8 xs.length ++ reprArray xs ++ rest, false⟩ st b
      = .ok ⟨true, xs, ⟨rest, false⟩, st⟩ := by
  unfold GenericReader.InPODArray.process
  rw [List.append_assoc, ← repr_toSizeT _ hlen, read_pod_repr]
  simp only [IStream.fail, Bool.false_eq_true, if_false, toSizeT_val _ hlen]
  by_cases h0 : xs.length = 0
  · have : xs = [] := List.length_eq_zero.mp h0
    subst this
    simp [resize, reprArray]
  · simp only [h0, if_false, read_pod_array_wire, Bool.not_false]

/-- C7: for every sequence `xs` of POD elements (of any length a
`std::size_t` holds, 0 included), the contiguous-POD write rule on an empty
healthy stream returns true, and the contiguous-POD read rule on the
produced bytes returns true and leaves the target container holding exactly
the elements of `xs` in the same order, whatever it held before. -/
theorem pod_array_round_trip {T : Type} [POD T] (xs old : List T)
    (hlen : xs.length < 2 ^ 64) (st : State) (bw br : Bool) (rest : List Byte) :
    (GenericWriter.InPODArray.process xs OStream.empty bw).1 = true ∧
    GenericReader.InPODArray.process old
        (IStream.ofBytes ((GenericWriter.InPODArray.process xs OStream.empty bw).2.out ++ rest))
        st br
      = .ok ⟨true, xs, IStream.ofBytes rest, st⟩ := by
  unfold OStream.empty IStream.ofBytes
  rw [GenericWriter.InPODArray.array_process_healthy xs hlen]
  exact ⟨rfl, by simpa using GenericReader.InPODArray.array_process_wire xs old hlen st br rest⟩

/-- The sequence 5, 7 is read back over a container that held 7, 7, 7. -/
theorem pod_array_round_trip_witness :
    [five, seven].length < 2 ^ 64 ∧
    (GenericWriter.InPODArray.process [five, seven] OStream.empty false).1 = true ∧
    GenericReader.InPODArray.process [seven, seven, seven]
        (IStream.ofBytes
          ((GenericWriter.InPODArray.process [five, seven] OStream.empty false).2.out ++ []))
        [] false
      = .ok ⟨true, [five, seven], IStream.ofBytes [], []⟩ :=
  ⟨by decide, pod_array_round_trip [five, seven] [seven, seven, seven] (by decide) [] false
    false []⟩

theorem OStream.write_nil (os : OStream) : os.write [] = os := by
  obtain ⟨out, room, failbit⟩ := os
  cases failbit <;> cases room <;> simp [OStream.write]

theorem OStream.fail_of_write_fail (os : OStream) (bs : List Byte)
    (h : os.fail = true) : (os.write bs).fail = true := by
  obtain ⟨out, room, failbit⟩ := os
  simp only [OStream.fail] at h
  subst h
  simp [OStream.write, OStream.fail]

theorem foldl_pod_writes {T : Type} [POD T] (itemId : ClassId) (xs : List T) (os : OStream) :
    xs.foldl
        (fun acc x =>
          let w := GenericWriter.ISPOD.process itemId x acc.2 false
          (acc.1 && w.1, w.2))
        (!os.fail, os)
      = (!(os.write (reprArray xs)).fail, os.write (reprArray xs)) := by
  induction xs generalizing os with
  | nil => simp [reprArray, OStream.write_nil]
  | cons x xs ih =>
    have hstep : (!os.fail && (GenericWriter.ISPOD.process itemId x os false).1)
        = !(os.write (POD.repr x)).fail := by
      simp only [GenericWriter.ISPOD.process, write_pod, Bool.false_eq_true, if_false,
        if_true, Bool.true_and]
      cases h : os.fail
      · simp
      · simp [OStream.fail_of_write_fail os _ h]
    have hstr : (GenericWriter.ISPOD.process itemId x os false).2 = os.write (POD.repr x) := by
      simp [GenericWriter.ISPOD.process, write_pod]
    simp only [List.foldl_cons, hstep, hstr, ih, reprArray, OStream.write_write]

/-- C8: for every sequence of POD elements and every output stream, the
bulk contiguous-POD write rule leaves the stream exactly as the
container-size write rule followed by the POD write rule without identity
tag on each element in order: the same chars are emitted (hence as many),
and the two results agree. -/
theorem pod_array_bulk_refines_elementwise {T : Type} [POD T] (itemId : ClassId)
    (xs : List T) (hlen : xs.length < 2 ^ 64) (os : OStream) (b : Bool) :
    GenericWriter.InPODArray.process xs os b = writeElementwise itemId xs os ∧
    (GenericWriter.InPODArray.process xs os b).2.out = (writeElementwise itemId xs os).2.out ∧
    (GenericWriter.InPODArray.process xs os b).2.out.length
      = (writeElementwise itemId xs os).2.out.length := by
  have key : GenericWriter.InPODArray.process xs os b = writeElementwise itemId xs os := by
    unfold writeElementwise GenericWriter.InContainerSize.process
    simp only [foldl_pod_writes]
    unfold GenericWriter.InPODArray.process write_pod_array
    simp only [toSizeT_val _ hlen, List.take_length]
    by_cases h0 : xs.length = 0
    · have : xs = [] := List.length_eq_zero.mp h0
      subst this
      simp [reprArray, OStream.write_nil]
    · simp [h0]
  rw [key]
  exact ⟨rfl, rfl, rfl⟩

/-- The sequence 5, 7 on a sink with room for 10 chars: both ways leave the
same ten chars and a failed stream. -/
theorem pod_array_bulk_refines_elementwise_witness :
    [five, seven].length < 2 ^ 64 ∧
    GenericWriter.InPODArray.process [five, seven] ⟨[], some 10, false⟩ false
      = writeElementwise intId [five, seven] ⟨[], some 10, false⟩ ∧
    (GenericWriter.InPODArray.process [five, seven] ⟨[], some 10, false⟩ false).2.out
      = (writeElementwise intId [five, seven] ⟨[], some 10, false⟩).2.out ∧
    (GenericWriter.InPODArray.process [five, seven] ⟨[], some 10, false⟩ false).2.out.length
      = (writeElementwise intId [five, seven] ⟨[], some 10, false⟩).2.out.length :=
  ⟨by decide,
    pod_array_bulk_refines_elementwise intId [five, seven] (by decide) ⟨[], some 10, false⟩
      false⟩

/-! ## The empty sequence -/

theorem process_const_item_PODArray_healthy {T : Type} [POD T] (current itemId : ClassId)
    (xs : List T) (hlen : xs.length < 2 ^ 64) (f : Bool) :
    process_const_item_PODArray current itemId xs OStream.empty f
      = (true, ⟨(if f then current.wire else []) ++ (leBytes 8 xs.length ++ reprArray xs),
          none, false⟩) := by
  cases f <;>
    simp [process_const_item_PODArray, GenericWriter.InContainerHeader.process,
      OStream.empty, ClassId.write_id_healthy, GenericWriter.InContainerFooter.process,
      GenericWriter.InPODArray.array_process_healthy xs hlen]

theorem process_item_PODArray_wire {T : Type} [POD T] (current : ClassId)
    (hwf : current.wf = true) (xs old : List T) (hlen : xs.length < 2 ^ 64) (st : State)
    (f : Bool) (rest : List Byte) :
    process_item_PODArray current old
        ⟨(if f then current.wire else []) ++ (leBytes 8 xs.length ++ reprArray xs) ++ rest,
          false⟩ st f
      = .ok ⟨true, xs, ⟨rest, false⟩, st⟩ := by
  have hb := fun (ol : List T) (b : Bool) =>
    GenericReader.InPODArray.array_process_wire xs ol hlen st b rest
  simp only [List.append_assoc] at hb
  cases f
  · simp [process_item_PODArray, GenericReader.InContainerHeader.process, hb,
      GenericReader.InContainerFooter.process]
  · simp [process_item_PODArray, GenericReader.InContainerHeader.process,
      ClassId.read_wire _ _ hwf, ClassId.ensureSameName_self, Except.map, hb,
      GenericReader.InContainerFooter.process]

theorem process_const_item_Container_nil {T : Type} (current itemId : ClassId)
    (isPOD isContiguous : Bool) (w : WriteRule T) (f : Bool) :
    process_const_item_Container current itemId isPOD isContiguous w ([] : List T)
        OStream.empty f
      = (true, ⟨(if f then current.wire else [])
          ++ (if (isPOD && isContiguous) then [] else itemId.wire)
          ++ [0, 0, 0, 0, 0, 0, 0, 0], none, false⟩) := by
  have hz : (POD.repr (toSizeT 0) : List Byte) = [0, 0, 0, 0, 0, 0, 0, 0] := by decide
  cases f <;> cases hpc : (isPOD && isContiguous) <;>
    simp [process_const_item_Container, GenericWriter.InContainerHeader.process, hpc,
      OStream.empty, ClassId.write_id_healthy, GenericWriter.InContainerSize.process,
      write_pod, OStream.write_on_healthy, OStream.fail,
      GenericWriter.InContainerFooter.process, hz]

theorem process_item_Container_nil {T : Type} (current itemId : ClassId)
    (hwf : current.wf = true) (hiwf : itemId.wf = true) (cycle : CycleRule (List T))
    (old : List T) (st : State) (f : Bool) (rest : List Byte) :
    process_item_Container current true false cycle old
        ⟨(if f then current.wire else []) ++ itemId.wire ++ [0, 0, 0, 0, 0, 0, 0, 0] ++ rest,
          false⟩ st f
      = .ok ⟨true, [], ⟨rest, false⟩, st⟩ := by
  have hz : (POD.repr (toSizeT 0) : List Byte) = [0, 0, 0, 0, 0, 0, 0, 0] := by decide
  have hsz := read_pod_repr (toSizeT 0) (toSizeT 0) rest
  rw [hz] at hsz
  simp only [List.cons_append, List.nil_append] at hsz
  have hv : (toSizeT 0).val = 0 := by decide
  cases f
  · simp [process_item_Container, GenericReader.InContainerHeader.process,
      ClassId.read_wire _ _ hiwf, GenericReader.InContainerSize.process, hsz, IStream.fail,
      hv, cycleItems, GenericReader.InContainerFooter.process]
  · simp [process_item_Container, GenericReader.InContainerHeader.process,
      ClassId.read_wire _ _ hwf, ClassId.read_wire _ _ hiwf, ClassId.ensureSameName_self,
      Except.map, GenericReader.InContainerSize.process, hsz, IStream.fail,
      hv, cycleItems, GenericReader.InContainerFooter.process]

/-- C9, as the code has it: writing an empty sequence of integers, contiguous
in memory (`std::vector<int>`) or not (`std::list<int>`), leaves the stream
holding, in this order, the identity of the container when the identity flag
is set (nothing when it is clear), the identity of the element type unless
the sequence is contiguous, and the zero-length marker, the size value 0 on
8 chars with no element bytes; reading that stream back with the same flag
returns true, leaves the target empty whatever it held, and leaves the
identity stack as it was; `restore_item` and `read_item` on that stream
return the empty sequence. -/
theorem empty_sequence_round_trip (current itemId : ClassId) (hwf : current.wf = true)
    (hiwf : itemId.wf = true) (isContiguous f : Bool) (old : List CInt) (st : State)
    (rest : List Byte) :
    write_item (process_const_item_PODSequence current itemId isContiguous) OStream.empty
        ([] : List CInt) f
      = (true, ⟨(if f then current.wire else [])
          ++ (if isContiguous then [] else itemId.wire)
          ++ [0, 0, 0, 0, 0, 0, 0, 0], none, false⟩) ∧
    process_item_PODSequence current itemId isContiguous old
        (IStream.ofBytes
          ((write_item (process_const_item_PODSequence current itemId isContiguous)
            OStream.empty ([] : List CInt) f).2.out ++ rest))
        st f
      = .ok ⟨true, [], IStream.ofBytes rest, st⟩ ∧
    restore_item
        (GenericReader.ISSTDCONTAINER.readIntoPtr
          (process_item_PODSequence current itemId isContiguous) [])
        (IStream.ofBytes
          ((write_item (process_const_item_PODSequence current itemId isContiguous)
            OStream.empty ([] : List CInt) f).2.out ++ rest))
        (some old) f
      = .ok (some [], IStream.ofBytes rest) ∧
    read_item
        (GenericReader.ISSTDCONTAINER.readIntoPtr
          (process_item_PODSequence current itemId isContiguous) ([] : List CInt))
        (IStream.ofBytes
          ((write_item (process_const_item_PODSequence current itemId isContiguous)
            OStream.empty ([] : List CInt) f).2.out ++ rest))
        f
      = .ok (some [], IStream.ofBytes rest) := by
  have key : ∀ (o : List CInt) (s0 : State),
      process_item_PODSequence current itemId isContiguous o
        (IStream.ofBytes
          ((if f then current.wire else []) ++ (if isContiguous then [] else itemId.wire)
            ++ [0, 0, 0, 0, 0, 0, 0, 0] ++ rest))
        s0 f
      = .ok ⟨true, [], IStream.ofBytes rest, s0⟩ := by
    intro o s0
    cases isContiguous
    · have hr := fun c => process_item_Container_nil current itemId hwf hiwf c o s0 f rest
      simp only [process_item_PODSequence, Bool.false_eq_true, if_false, IStream.ofBytes]
      exact hr _
    · have hr := process_item_PODArray_wire current hwf ([] : List CInt) o (by decide) s0 f
        rest
      simp only [process_item_PODSequence, if_true, IStream.ofBytes, List.append_nil]
      simpa [leBytes, reprArray] using hr
  have hw : write_item (process_const_item_PODSequence current itemId isContiguous)
      OStream.empty ([] : List CInt) f
      = (true, ⟨(if f then current.wire else [])
          ++ (if isContiguous then [] else itemId.wire)
          ++ [0, 0, 0, 0, 0, 0, 0, 0], none, false⟩) := by
    cases isContiguous
    · have h := process_const_item_Container_nil current itemId true false
        (GenericWriter.ISPOD.process itemId : WriteRule CInt) f
      simp only [Bool.and_false, Bool.false_eq_true, if_false] at h
      simp only [write_item, process_const_item, process_const_item_PODSequence,
        Bool.false_eq_true, if_false, h]
    · have h := process_const_item_PODArray_healthy current itemId ([] : List CInt)
        (by decide) f
      simp only [write_item, process_const_item, process_const_item_PODSequence, if_true, h]
      simp [leBytes, reprArray]
  have key2 : ∀ (o : List CInt) (s0 : State),
      process_item_PODSequence current itemId isContiguous o
        (IStream.ofBytes
          ((write_item (process_const_item_PODSequence current itemId isContiguous)
            OStream.empty ([] : List CInt) f).2.out ++ rest))
        s0 f
      = .ok ⟨true, [], IStream.ofBytes rest, s0⟩ := by
    intro o s0
    rw [hw]
    exact key o s0
  refine ⟨hw, key2 old st, ?_, ?_⟩
  · simp only [restore_item, GenericReader.ISPOINTER.process,
      GenericReader.ISSTDCONTAINER.readIntoPtr, key2]
    simp [IStream.ofBytes, IStream.fail]
  · simp only [read_item, GenericReader.ISNULLPOINTER.process,
      GenericReader.ISSTDCONTAINER.readIntoPtr, key2]
    simp [IStream.ofBytes, IStream.fail]

/-- The empty `std::list<int>` with identity tag: the stream holds the
identity of the list, the identity of `int` and the 8 chars of the size 0,
and is read back as an empty sequence over a container that held 5. -/
theorem empty_sequence_round_trip_witness :
    listIntId.wf = true ∧ intId.wf = true ∧
    write_item (process_const_item_PODSequence listIntId intId false) OStream.empty
        ([] : List CInt) true
      = (true, ⟨(if true then listIntId.wire else [])
          ++ (if false then [] else intId.wire)
          ++ [0, 0, 0, 0, 0, 0, 0, 0], none, false⟩) ∧
    process_item_PODSequence listIntId intId false [five]
        (IStream.ofBytes
          ((write_item (process_const_item_PODSequence listIntId intId false) OStream.empty
            ([] : List CInt) true).2.out ++ []))
        [] true
      = .ok ⟨true, [], IStream.ofBytes [], []⟩ ∧
    restore_item
        (GenericReader.ISSTDCONTAINER.readIntoPtr
          (process_item_PODSequence listIntId intId false) [])
        (IStream.ofBytes
          ((write_item (process_const_item_PODSequence listIntId intId false) OStream.empty
            ([] : List CInt) true).2.out ++ []))
        (some [five]) true
      = .ok (some [], IStream.ofBytes []) ∧
    read_item
        (GenericReader.ISSTDCONTAINER.readIntoPtr
          (process_item_PODSequence listIntId intId false) ([] : List CInt))
        (IStream.ofBytes
          ((write_item (process_const_item_PODSequence listIntId intId false) OStream.empty
            ([] : List CInt) true).2.out ++ []))
        true
      = .ok (some [], IStream.ofBytes []) :=
  ⟨by decide, by decide,
    empty_sequence_round_trip listIntId intId (by decide) (by decide) false true [five] [] []⟩

/-- The verb `write_item` with its default identity flag on an empty
`std::vector<int>`: the stream holds 62 chars, the identity of the container
before the 8 chars of the size 0, not the zero-length marker only. On an
empty `std::list<int>` with the flag clear the stream holds the identity of
`int` before the 8 chars of the size 0. -/
theorem empty_sequence_tagged_not_marker_only :
    (write_item (process_const_item_PODArray vectorIntId intId) OStream.empty
        ([] : List CInt) true).1 = true ∧
    (write_item (process_const_item_PODArray vectorIntId intId) OStream.empty
        ([] : List CInt) true).2.out ≠ [0, 0, 0, 0, 0, 0, 0, 0] ∧
    (write_item (process_const_item_PODArray vectorIntId intId) OStream.empty
        ([] : List CInt) true).2.out.length = 62 ∧
    (write_item (process_const_item_PODArray vectorIntId intId) OStream.empty
        ([] : List CInt) true).2.out = vectorIntId.wire ++ [0, 0, 0, 0, 0, 0, 0, 0] ∧
    (write_item (process_const_item_PODSequence listIntId intId false) OStream.empty
        ([] : List CInt) false).2.out ≠ [0, 0, 0, 0, 0, 0, 0, 0] ∧
    (write_item (process_const_item_PODSequence listIntId intId false) OStream.empty
        ([] : List CInt) false).2.out = intId.wire ++ [0, 0, 0, 0, 0, 0, 0, 0] := by
  decide

/-! ## Identity mismatch -/

theorem ClassId.ensureSameName_ne (current id : ClassId) (h : current.name ≠ id.name) :
    current.ensureSameName id
      = .error (.IOInvalidData "In gs::ClassId::ensureSameName: class name mismatch") := by
  simp [ClassId.ensureSameName, h]

/-- C10, as the code has it: let a value of a type `A` be written with its
identity tag by a write rule that emits the identity `idA` first (as the POD,
string, pair and container-header rules do), and let `idB` be an identity
with another name. Reading the produced bytes with identity reading enabled
as a POD, a string, a pair or a container of identity `idB` raises
`IOInvalidData`, in the read rules and in `read_item` and `restore_item`: no
such read returns. -/
theorem identity_name_mismatch_raises {A B C D : Type} [POD B] (idA idB : ClassId)
    (hwf : idA.wf = true) (hne : idB.name ≠ idA.name) (w : WriteRule A) (v : A)
    (payload : List Byte)
    (hw : (write_item w OStream.empty v true).2.out = idA.wire ++ payload)
    (pb : Option B) (tb : B) (ps : Option (List Byte)) (ts : List Byte)
    (readFirst : ReadRule C) (readSecond : ReadRule D) (fresh : C × D)
    (pp : Option (C × D)) (vb : List B) (isPOD isContiguous : Bool) (st : State)
    (cycle : CycleRule (List B)) :
    (∃ what, GenericReader.ISPOD.readIntoPtr idB pb
        (IStream.ofBytes (write_item w OStream.empty v true).2.out) st true
      = .error (.IOInvalidData what)) ∧
    (∃ what, GenericReader.ISSTRING.readIntoPtr idB ps
        (IStream.ofBytes (write_item w OStream.empty v true).2.out) st true
      = .error (.IOInvalidData what)) ∧
    (∃ what, GenericReader.ISPAIR.readIntoPtr idB readFirst readSecond fresh pp
        (IStream.ofBytes (write_item w OStream.empty v true).2.out) st true
      = .error (.IOInvalidData what)) ∧
    (∃ what, GenericReader.InContainerHeader.process idB isPOD isContiguous vb
        (IStream.ofBytes (write_item w OStream.empty v true).2.out) st true
      = .error (.IOInvalidData what)) ∧
    (∃ what, read_item (GenericReader.ISPOD.readIntoPtr idB : ReadIntoPtr B)
        (IStream.ofBytes (write_item w OStream.empty v true).2.out) true
      = .error (.IOInvalidData what)) ∧
    (∃ what, restore_item (GenericReader.ISPOD.readIntoPtr idB)
        (IStream.ofBytes (write_item w OStream.empty v true).2.out) (some tb) true
      = .error (.IOInvalidData what)) ∧
    (∃ what, read_item (GenericReader.ISSTRING.readIntoPtr idB)
        (IStream.ofBytes (write_item w OStream.empty v true).2.out) true
      = .error (.IOInvalidData what)) ∧
    (∃ what, restore_item (GenericReader.ISSTRING.readIntoPtr idB)
        (IStream.ofBytes (write_item w OStream.empty v true).2.out) (some ts) true
      = .error (.IOInvalidData what)) ∧
    (∃ what, read_item
        (GenericReader.ISPAIR.readIntoPtr idB readFirst readSecond fresh)
        (IStream.ofBytes (write_item w OStream.empty v true).2.out) true
      = .error (.IOInvalidData what)) ∧
    (∃ what, restore_item
        (GenericReader.ISPAIR.readIntoPtr idB readFirst readSecond fresh)
        (IStream.ofBytes (write_item w OStream.empty v true).2.out) (some fresh) true
      = .error (.IOInvalidData what)) ∧
    (∃ what, read_item
        (GenericReader.ISSTDCONTAINER.readIntoPtr
          (process_item_Container idB isPOD isContiguous cycle) [])
        (IStream.ofBytes (write_item w OStream.empty v true).2.out) true
      = .error (.IOInvalidData what)) ∧
    (∃ what, restore_item
        (GenericReader.ISSTDCONTAINER.readIntoPtr
          (process_item_Container idB isPOD isContiguous cycle) [])
        (IStream.ofBytes (write_item w OStream.empty v true).2.out) (some vb) true
      = .error (.IOInvalidData what)) ∧
    (∃ what, read_item
        (GenericReader.ISSTDCONTAINER.readIntoPtr (process_item_PODArray idB) ([] : List B))
        (IStream.ofBytes (write_item w OStream.empty v true).2.out) true
      = .error (.IOInvalidData what)) ∧
    (∃ what, restore_item
        (GenericReader.ISSTDCONTAINER.readIntoPtr (process_item_PODArray idB) ([] : List B))
        (IStream.ofBytes (write_item w OStream.empty v true).2.out) (some vb) true
      = .error (.IOInvalidData what)) := by
  rw [hw]
  have hread := ClassId.read_wire idA payload hwf
  have hname := ClassId.ensureSameName_ne idB idA hne
  have hpod : ∀ p : Option B, GenericReader.ISPOD.readIntoPtr idB p
      (IStream.ofBytes (idA.wire ++ payload)) st true
      = .error (.IOInvalidData "In gs::ClassId::ensureSameName: class name mismatch") := by
    intro p
    simp [GenericReader.ISPOD.readIntoPtr, IStream.ofBytes, hread, hname, Except.map]
  have hpod0 : ∀ p : Option B, GenericReader.ISPOD.readIntoPtr idB p
      (IStream.ofBytes (idA.wire ++ payload)) [] true
      = .error (.IOInvalidData "In gs::ClassId::ensureSameName: class name mismatch") := by
    intro p
    simp [GenericReader.ISPOD.readIntoPtr, IStream.ofBytes, hread, hname, Except.map]
  have hstr : ∀ (p : Option (List Byte)) (s0 : State), GenericReader.ISSTRING.readIntoPtr idB p
      (IStream.ofBytes (idA.wire ++ payload)) s0 true
      = .error (.IOInvalidData "In gs::ClassId::ensureSameName: class name mismatch") := by
    intro p s0
    simp [GenericReader.ISSTRING.readIntoPtr, IStream.ofBytes, hread, hname, Except.map]
  have hpair : ∀ (p : Option (C × D)) (s0 : State),
      GenericReader.ISPAIR.readIntoPtr idB readFirst readSecond fresh p
        (IStream.ofBytes (idA.wire ++ payload)) s0 true
      = .error (.IOInvalidData "In gs::ClassId::ensureSameName: class name mismatch") := by
    intro p s0
    simp [GenericReader.ISPAIR.readIntoPtr, IStream.ofBytes, hread, hname]
  have hhead : ∀ (ip ic : Bool) (x : List B) (s0 : State),
      GenericReader.InContainerHeader.process idB ip ic x
        (IStream.ofBytes (idA.wire ++ payload)) s0 true
      = .error (.IOInvalidData "In gs::ClassId::ensureSameName: class name mismatch") := by
    intro ip ic x s0
    simp [GenericReader.InContainerHeader.process, IStream.ofBytes, hread, hname, Except.map]
  have hcont : ∀ (p : Option (List B)),
      GenericReader.ISSTDCONTAINER.readIntoPtr
        (process_item_Container idB isPOD isContiguous cycle) [] p
        (IStream.ofBytes (idA.wire ++ payload)) [] true
      = .error (.IOInvalidData "In gs::ClassId::ensureSameName: class name mismatch") := by
    intro p
    cases p <;>
      simp [GenericReader.ISSTDCONTAINER.readIntoPtr, process_item_Container, hhead]
  have harr : ∀ (p : Option (List B)),
      GenericReader.ISSTDCONTAINER.readIntoPtr (process_item_PODArray idB) ([] : List B) p
        (IStream.ofBytes (idA.wire ++ payload)) [] true
      = .error (.IOInvalidData "In gs::ClassId::ensureSameName: class name mismatch") := by
    intro p
    cases p <;>
      simp [GenericReader.ISSTDCONTAINER.readIntoPtr, process_item_PODArray, hhead]
  refine ⟨⟨_, hpod pb⟩, ⟨_, hstr ps st⟩, ⟨_, hpair pp st⟩, ⟨_, hhead _ _ vb st⟩,
    ?_, ?_, ?_, ?_, ?_, ?_, ?_, ?_, ?_, ?_⟩ <;>
    refine ⟨"In gs::ClassId::ensureSameName: class name mismatch", ?_⟩ <;>
    simp [read_item, restore_item, GenericReader.ISNULLPOINTER.process,
      GenericReader.ISPOINTER.process, hpod0, hstr, hpair, hcont, harr]

/-- The `int` 5 written with its identity tag and read as an `unsigned`:
`read_item` raises `IOInvalidData`. -/
theorem identity_name_mismatch_raises_witness :
    intId.wf = true ∧ unsignedId.name ≠ intId.name ∧
    (write_item (GenericWriter.ISPOD.process intId) OStream.empty five true).2.out
      = intId.wire ++ POD.repr five ∧
    ∃ what, read_item (GenericReader.ISPOD.readIntoPtr unsignedId : ReadIntoPtr Unsigned)
        (IStream.ofBytes
          (write_item (GenericWriter.ISPOD.process intId) OStream.empty five true).2.out)
        true
      = .error (.IOInvalidData what) :=
  ⟨by decide, by decide, by decide,
    (@identity_name_mismatch_raises CInt Unsigned CInt (List Byte) _ intId unsignedId
      (by decide) (by decide) (GenericWriter.ISPOD.process intId) five (POD.repr five)
      (by decide) none (toUnsigned 0) none [] (GenericReader.ISPOD.process intId)
      (GenericReader.ISSTRING.process stringId) (toCInt 0, []) none [] true true
      []
      (GenericReader.InContainerCycle.process2_4 pushBack
        (GenericReader.ISPOD.readIntoPtr unsignedId) (toUnsigned 0))).2.2.2.2.1⟩

/-- The `int` 5 written without identity tag and read as an `unsigned`
without identity tag: no name is compared and `read_item` returns the
`unsigned` 5. The `unsigned` 5 written with its identity tag and read, with
identity reading enabled, as a heap-readable type whose factory does not
look at the identity it is handed: `read_item` returns too. -/
theorem other_type_read_returns :
    unsignedId.name ≠ intId.name ∧
    read_item (GenericReader.ISPOD.readIntoPtr unsignedId : ReadIntoPtr Unsigned)
        (IStream.ofBytes
          (write_item (GenericWriter.ISPOD.process intId) OStream.empty five false).2.out)
        false
      = .ok (some (toUnsigned 5), ⟨[], false⟩) ∧
    read_item (GenericReader.ISPUREHEAPREADABLE.readIntoPtr readIntFactory)
        (IStream.ofBytes
          (write_item (GenericWriter.ISPOD.process unsignedId) OStream.empty (toUnsigned 5)
            true).2.out)
        true
      = .ok (some five, ⟨[], false⟩) :=
  ⟨by decide, rfl, rfl⟩

/-! ## Container header and footer -/

/-- C11: for every element and container kind, identity stack and stream
(healthy or failed, whatever the element identity parses to), whenever the
read-side header returns, the read-side footer run after it returns with the
identity stack equal to the stack before the header: the header pushed one
entry exactly when the footer pops one. The header cannot end otherwise than
by the name check raising, which precedes the push. -/
theorem header_footer_restore_stack {T : Type} (current : ClassId)
    (isPOD isContiguous : Bool) (a : List T) (is : IStream) (state : State)
    (processClassId : Bool) :
    (∀ h, GenericReader.InContainerHeader.process current isPOD isContiguous a is state
        processClassId = .ok h →
      (∃ f, GenericReader.InContainerFooter.process isPOD isContiguous h.target h.str h.state
          = .ok f ∧ f.state = state ∧ f.status = true) ∧
      ((isPOD && isContiguous) = false → ∃ id, h.state = state ++ [id]) ∧
      ((isPOD && isContiguous) = true → h.state = state)) ∧
    (∀ e, GenericReader.InContainerHeader.process current isPOD isContiguous a is state
        processClassId = .error e →
      processClassId = true ∧ current.ensureSameName (ClassId.read is).1 = .error e) ∧
    (processClassId = false →
      ∃ h, GenericReader.InContainerHeader.process current isPOD isContiguous a is state
        processClassId = .ok h) := by
  unfold GenericReader.InContainerHeader.process GenericReader.InContainerFooter.process
  cases processClassId
  · cases hpc : (isPOD && isContiguous) <;> simp [hpc]
  · cases hn : current.ensureSameName (ClassId.read is).1 with
    | error e => simp [Except.map]
    | ok u =>
      cases hpc : (isPOD && isContiguous) <;> simp [hpc, Except.map]

/-- A `std::vector<std::string>` header read without container identity from
an empty stream: the element identity parse fails, an entry is pushed all
the same, and the footer takes it off again. -/
theorem header_footer_restore_stack_witness :
    GenericReader.InContainerHeader.process vectorIntId false true ([] : List (List Byte))
        (IStream.ofBytes []) [intId] false
      = .ok ⟨true, [], ⟨[], true⟩, [intId, .mk [] 0 []]⟩ ∧
    ∃ f, GenericReader.InContainerFooter.process false true ([] : List (List Byte))
        ⟨[], true⟩ [intId, .mk [] 0 []] = .ok f ∧ f.state = [intId] ∧ f.status = true :=
  ⟨rfl,
    ((header_footer_restore_stack vectorIntId false true ([] : List (List Byte))
      (IStream.ofBytes []) [intId] false).1 ⟨true, [], ⟨[], true⟩, [intId, .mk [] 0 []]⟩
      rfl).1⟩

/-! ## Pointer write rules -/

/-- C12: on every stream, the bare-pointer and the shared-pointer write rule
given a pointer without pointee end on the failed non-null assertion and
leave the stream as it was, nothing being written; given a non-null pointer
they return the result of writing the pointee with the same identity flag
and leave the stream as that write leaves it. -/
theorem pointer_write_null_or_pointee {T : Type} (pointee : WriteRule T) (os : OStream)
    (processClassId : Bool) :
    GenericWriter.ISPOINTER.process pointee none os processClassId
      = (.error .assertFailed, os) ∧
    GenericWriter.ISSHAREDPTR.process pointee none os processClassId
      = (.error .assertFailed, os) ∧
    (GenericWriter.ISPOINTER.process pointee none os processClassId).2.out = os.out ∧
    (GenericWriter.ISSHAREDPTR.process pointee none os processClassId).2.out = os.out ∧
    (∀ v : T,
      GenericWriter.ISPOINTER.process pointee (some v) os processClassId
        = (.ok (process_const_item pointee v os processClassId).1,
            (process_const_item pointee v os processClassId).2) ∧
      GenericWriter.ISSHAREDPTR.process pointee (some v) os processClassId
        = (.ok (process_const_item pointee v os processClassId).1,
            (process_const_item pointee v os processClassId).2)) := by
  refine ⟨rfl, rfl, rfl, rfl, ?_⟩
  intro v
  exact ⟨rfl, rfl⟩

/-! ## Arrays -/

/-- C14, as the code has it: `read_array` runs the dispatcher on the array
view with identity tags off and an empty identity stack. Whenever the
dispatcher returns, `read_array` raises `IOReadFailure` exactly when the
stream is in its fail state after the read, otherwise raises `IOInvalidData`
exactly when the dispatcher returned false, and otherwise returns normally
with the storage and the stream as the dispatcher left them. An error raised
below the dispatcher is not handled: `read_array` ends the same way. So
`read_array` returns normally exactly when the dispatcher returned true on a
stream that is not failed. -/
theorem read_array_outcome {T : Type} (rule : ReadRule (ArrayAdaptor T)) (is : IStream)
    (items : List T) (length : Nat) :
    (∀ r, process_item rule ⟨items, length⟩ is [] false = .ok r →
      ((∃ what, read_array rule is items length = .error (.IOReadFailure what))
        ↔ r.str.fail = true) ∧
      (r.str.fail = false →
        ((∃ what, read_array rule is items length = .error (.IOInvalidData what))
          ↔ r.status = false)) ∧
      (r.str.fail = false → r.status = true →
        read_array rule is items length = .ok (r.target.items, r.str))) ∧
    (∀ e, process_item rule ⟨items, length⟩ is [] false = .error e →
      read_array rule is items length = .error e) ∧
    (∀ x, read_array rule is items length = .ok x ↔
      ∃ r, process_item rule ⟨items, length⟩ is [] false = .ok r ∧
        r.str.fail = false ∧ r.status = true ∧ (r.target.items, r.str) = x) := by
  unfold read_array
  refine ⟨?_, ?_, ?_⟩
  · intro r h
    rw [h]
    cases hf : r.str.fail <;> cases hs : r.status <;> simp [hf, hs]
  · intro e h
    rw [h]
  · intro x
    cases h : process_item rule ⟨items, length⟩ is [] false with
    | error e => simp
    | ok r =>
      cases hf : r.str.fail <;> cases hs : r.status <;> simp [hf, hs]

/-- Reading two `int` from a stream of five chars into storage holding 7, 7:
the dispatcher returns false on a failed stream and `read_array` raises
`IOReadFailure`; from eight chars the dispatcher returns true and
`read_array` returns normally with 5, 7. -/
theorem read_array_outcome_witness :
    (∃ r, process_item process_item_ArrayPOD ⟨[seven, seven], 2⟩
        (IStream.ofBytes [5, 0, 0, 0, 7]) [] false = .ok r ∧ r.str.fail = true) ∧
    (∃ what, read_array process_item_ArrayPOD (IStream.ofBytes [5, 0, 0, 0, 7])
        [seven, seven] 2 = .error (.IOReadFailure what)) ∧
    process_item process_item_ArrayPOD ⟨[seven, seven], 2⟩
        (IStream.ofBytes [5, 0, 0, 0, 7, 0, 0, 0]) [] false
      = .ok ⟨true, ⟨[five, seven], 2⟩, ⟨[], false⟩, []⟩ ∧
    read_array process_item_ArrayPOD (IStream.ofBytes [5, 0, 0, 0, 7, 0, 0, 0])
        [seven, seven] 2 = .ok ([five, seven], ⟨[], false⟩) :=
  ⟨⟨_, rfl, rfl⟩,
    (((read_array_outcome process_item_ArrayPOD (IStream.ofBytes [5, 0, 0, 0, 7])
      [seven, seven] 2).1 _ rfl).1).2 rfl,
    rfl,
    ((read_array_outcome process_item_ArrayPOD (IStream.ofBytes [5, 0, 0, 0, 7, 0, 0, 0])
      [seven, seven] 2).1 ⟨true, ⟨[five, seven], 2⟩, ⟨[], false⟩, []⟩ rfl).2.2 rfl rfl⟩

/-- Reading an array of one `std::pair<int, std::string>` from a healthy
stream whose element identity is that of `int`: the header pushes the
identity, the pair rule finds no two template parameters on top of the stack
and raises `IOInvalidData`; the dispatcher does not return false, the stream
is not failed after the header, and `read_array` ends on that
`IOInvalidData`. -/
theorem read_array_invalid_data_without_false :
    process_item (process_item_Array arrayPairId pairElementRule) ⟨[(toCInt 0, [])], 1⟩
        (IStream.ofBytes (intId.wire ++ [5, 0, 0, 0, 1, 0, 0, 0, 0, 0, 0, 0, 120])) [] false
      = .error (.IOInvalidData
          "In gs::GenericReader::readIntoPtr: bad class id for std::pair on the class id stack: int") ∧
    (¬ ∃ r, process_item (process_item_Array arrayPairId pairElementRule)
        ⟨[(toCInt 0, [])], 1⟩
        (IStream.ofBytes (intId.wire ++ [5, 0, 0, 0, 1, 0, 0, 0, 0, 0, 0, 0, 120])) [] false
      = .ok r) ∧
    GenericReader.InContainerHeader.process arrayPairId false true
        ([(toCInt 0, [])] : List (CInt × List Byte))
        (IStream.ofBytes (intId.wire ++ [5, 0, 0, 0, 1, 0, 0, 0, 0, 0, 0, 0, 120])) [] false
      = .ok ⟨true, [], ⟨[5, 0, 0, 0, 1, 0, 0, 0, 0, 0, 0, 0, 120], false⟩, [intId]⟩ ∧
    read_array (process_item_Array arrayPairId pairElementRule)
        (IStream.ofBytes (intId.wire ++ [5, 0, 0, 0, 1, 0, 0, 0, 0, 0, 0, 0, 120]))
        [(toCInt 0, [])] 1
      = .error (.IOInvalidData
          "In gs::GenericReader::readIntoPtr: bad class id for std::pair on the class id stack: int") ∧
    read_array (process_item_Array arrayPairId pairElementRule)
        (IStream.ofBytes
          (pairIntStringId.wire ++ [5, 0, 0, 0, 1, 0, 0, 0, 0, 0, 0, 0, 120]))
        [(toCInt 0, [])] 1
      = .ok ([(five, [120])], ⟨[], false⟩) := by
  refine ⟨rfl, ?_, rfl, rfl, rfl⟩
  rintro ⟨r, h⟩
  have h2 : (Except.error (Raised.IOInvalidData
      "In gs::GenericReader::readIntoPtr: bad class id for std::pair on the class id stack: int") :
      Except Raised (Out (ArrayAdaptor (CInt × List Byte)))) = .ok r := h
  cases h2

/-! ## Container header, write and read side -/

/-- C15: the write-side container header emits the container identity
exactly when the flag is set, and then emits the element identity, once, if
and only if the preceding step succeeded and the container is not a
contiguous container of POD elements; its result is the conjunction of the
statuses of the identity writes performed, true when none is. -/
theorem header_write_emits (current itemId : ClassId) (isPOD isContiguous : Bool)
    (os : OStream) (processClassId : Bool) :
    let first := if processClassId then current.write os else (true, os)
    let second := first.1 && !(isPOD && isContiguous)
    (first.2 = if processClassId then os.write current.wire else os) ∧
    (GenericWriter.InContainerHeader.process current itemId isPOD isContiguous os
        processClassId).2
      = (if second then first.2.write itemId.wire else first.2) ∧
    (GenericWriter.InContainerHeader.process current itemId isPOD isContiguous os
        processClassId).1
      = (first.1 && (if second then (itemId.write first.2).1 else true)) ∧
    (processClassId = false → (isPOD && isContiguous) = true →
      GenericWriter.InContainerHeader.process current itemId isPOD isContiguous os
        processClassId = (true, os)) := by
  unfold GenericWriter.InContainerHeader.process
  cases processClassId <;> cases hpc : (isPOD && isContiguous) <;>
    simp [hpc, ClassId.write]
  all_goals cases hf : (os.write current.wire).fail <;> simp [hf]

/-- On a healthy stream without limit the header leaves, after what the
stream held, the container identity when the flag is set and then the
element identity unless the container is a contiguous container of POD
elements. -/
theorem header_write_healthy (current itemId : ClassId) (isPOD isContiguous : Bool)
    (out : List Byte) (processClassId : Bool) :
    GenericWriter.InContainerHeader.process current itemId isPOD isContiguous
        ⟨out, none, false⟩ processClassId
      = (true, ⟨out ++ ((if processClassId then current.wire else [])
          ++ (if (isPOD && isContiguous) then [] else itemId.wire)), none, false⟩) := by
  unfold GenericWriter.InContainerHeader.process
  cases processClassId <;> cases hpc : (isPOD && isContiguous) <;>
    simp [hpc, ClassId.write_id_healthy]

/-- C16: on every stream and target container for which the container name
check passes or is not requested, the read-side container header returns
true and leaves the target container empty; it pushes exactly one identity,
the one parsed from the stream, when the container is not a contiguous
container of POD elements, and leaves the stack unchanged otherwise. A
failed stream or an identity that does not parse changes none of this. -/
theorem header_read_clears_and_pushes {T : Type} (current : ClassId)
    (isPOD isContiguous : Bool) (a : List T) (is : IStream) (state : State)
    (processClassId : Bool)
    (hname : processClassId = false ∨
      current.ensureSameName (ClassId.read is).1 = .ok ()) :
    let is1 := if processClassId then (ClassId.read is).2 else is
    GenericReader.InContainerHeader.process current isPOD isContiguous a is state
        processClassId
      = .ok ⟨true, [],
          if (isPOD && isContiguous) then is1 else (ClassId.read is1).2,
          if (isPOD && isContiguous) then state else state ++ [(ClassId.read is1).1]⟩ := by
  unfold GenericReader.InContainerHeader.process
  cases processClassId
  · cases hpc : (isPOD && isContiguous) <;> simp [hpc]
  · have h : current.ensureSameName (ClassId.read is).1 = .ok () := by
      cases hname with
      | inl h => cases h
      | inr h => exact h
    cases hpc : (isPOD && isContiguous) <;> simp [hpc, h, Except.map]

/-- A header read without name check on a stream already in its fail state,
over a container holding "abc": the result is true, the container is empty
and one (invalid) identity is on the stack. -/
theorem header_read_clears_and_pushes_witness :
    ((false = false) ∨ vectorIntId.ensureSameName (ClassId.read ⟨[1, 2], true⟩).1 = .ok ()) ∧
    GenericReader.InContainerHeader.process vectorIntId false true [chars "abc"]
        ⟨[1, 2], true⟩ [] false
      = .ok ⟨true, [], ⟨[1, 2], true⟩, [.mk [] 0 []]⟩ :=
  ⟨Or.inl rfl,
    header_read_clears_and_pushes vectorIntId false true [chars "abc"] ⟨[1, 2], true⟩ []
      false (Or.inl rfl)⟩

/-! ## Pair rules -/

/-- C17: when a pair is read without its own identity tag and `back` is on
top of a non-empty identity stack, the field identities are the template
parameters of `back`. If there are not exactly two of them, the rule raises
`IOInvalidData` with a message that ends in the text naming `back`, whatever
the field rules and the stream are, so no field is read. If there are two,
the first field is read against the first list and the second field against
the second. -/
theorem pair_read_from_stack {A B : Type} (current : ClassId) (readFirst : ReadRule A)
    (readSecond : ReadRule B) (fresh : A × B) (ptr : Option (A × B)) (str : IStream)
    (s : State) (back : ClassId) (hback : s.getLast? = some back) :
    (back.templateParameters.length ≠ 2 →
      ∀ (C D : Type) (rf : ReadRule C) (rs : ReadRule D) (fr : C × D) (p : Option (C × D))
        (is : IStream),
        GenericReader.ISPAIR.readIntoPtr current rf rs fr p is s false
          = .error (.IOInvalidData
              ("In gs::GenericReader::readIntoPtr: bad class id for std::pair on the class id stack: "
                ++ back.id))) ∧
    (∀ s0 s1, back.templateParameters = [s0, s1] →
      GenericReader.ISPAIR.readIntoPtr current readFirst readSecond fresh ptr str s false
        = match process_item readFirst (ptr.getD fresh).1 str s0 false with
          | .error e => .error e
          | .ok r1 =>
            if r1.status then
              match process_item readSecond (ptr.getD fresh).2 r1.str s1 false with
              | .error e => .error e
              | .ok r2 =>
                if r2.status then .ok ⟨true, some (r1.target, r2.target), r2.str, s⟩
                else .ok ⟨false, ptr.map (fun _ => (r1.target, r2.target)), r2.str, s⟩
            else .ok ⟨false, ptr.map (fun _ => (r1.target, (ptr.getD fresh).2)), r1.str, s⟩) := by
  constructor
  · intro hlen C D rf rs fr p is
    simp [GenericReader.ISPAIR.readIntoPtr, hback, hlen]
  · intro s0 s1 hps
    simp [GenericReader.ISPAIR.readIntoPtr, hback, hps]

/-- A pair of `int` and string read without tag while the identity of `int`,
which has no template parameter, is on top of the stack: `IOInvalidData`
with a message naming "int". With the identity of the pair on top, the pair
is read from the stream. -/
theorem pair_read_from_stack_witness :
    [intId].getLast? = some intId ∧ intId.templateParameters.length ≠ 2 ∧
    GenericReader.ISPAIR.readIntoPtr pairIntStringId (GenericReader.ISPOD.process intId)
        (GenericReader.ISSTRING.process stringId) (toCInt 0, []) none
        (IStream.ofBytes [5, 0, 0, 0, 1, 0, 0, 0, 0, 0, 0, 0, 120]) [intId] false
      = .error (.IOInvalidData
          "In gs::GenericReader::readIntoPtr: bad class id for std::pair on the class id stack: int") ∧
    GenericReader.ISPAIR.readIntoPtr pairIntStringId (GenericReader.ISPOD.process intId)
        (GenericReader.ISSTRING.process stringId) (toCInt 0, []) none
        (IStream.ofBytes [5, 0, 0, 0, 1, 0, 0, 0, 0, 0, 0, 0, 120]) [pairIntStringId] false
      = .ok ⟨true, some (five, chars "x"), IStream.ofBytes [], [pairIntStringId]⟩ :=
  ⟨rfl, by decide,
    (pair_read_from_stack pairIntStringId (GenericReader.ISPOD.process intId)
      (GenericReader.ISSTRING.process stringId) (toCInt 0, []) none
      (IStream.ofBytes [5, 0, 0, 0, 1, 0, 0, 0, 0, 0, 0, 0, 120]) [intId] intId rfl).1
      (by decide) CInt (List Byte) (GenericReader.ISPOD.process intId)
      (GenericReader.ISSTRING.process stringId) (toCInt 0, []) none
      (IStream.ofBytes [5, 0, 0, 0, 1, 0, 0, 0, 0, 0, 0, 0, 120]),
    rfl⟩

/-- C18: the pair write rule emits the pair identity exactly when the flag
is set, then writes the first field without identity tag, then the second
field without identity tag, each step on the stream the previous one left;
it returns the conjunction of the three statuses and stops at the first
failing step, so that the second field is not written when the identity or
the first field failed, nor the first field when the identity failed. -/
theorem pair_write_steps {A B : Type} (current : ClassId) (writeFirst : WriteRule A)
    (writeSecond : WriteRule B) (s : A × B) (os : OStream) (processClassId : Bool) :
    let r0 := if processClassId then current.write os else (true, os)
    let r1 := process_const_item writeFirst s.1 r0.2 false
    let r2 := process_const_item writeSecond s.2 r1.2 false
    (r0.2 = if processClassId then os.write current.wire else os) ∧
    (GenericWriter.ISPAIR.process current writeFirst writeSecond s os processClassId).1
      = (r0.1 && r1.1 && r2.1) ∧
    (r0.1 = false →
      (GenericWriter.ISPAIR.process current writeFirst writeSecond s os processClassId).2
        = r0.2) ∧
    (r0.1 = true → r1.1 = false →
      (GenericWriter.ISPAIR.process current writeFirst writeSecond s os processClassId).2
        = r1.2) ∧
    (r0.1 = true → r1.1 = true →
      (GenericWriter.ISPAIR.process current writeFirst writeSecond s os processClassId).2
        = r2.2) := by
  unfold GenericWriter.ISPAIR.process
  cases processClassId
  · cases h1 : (process_const_item writeFirst s.1 os false).1 <;> simp [h1]
  · cases h0 : (current.write os).1
    · simp [h0]
      simp [ClassId.write]
    · cases h1 : (process_const_item writeFirst s.1 (current.write os).2 false).1 <;>
        simp [h0, h1]
      all_goals simp [ClassId.write]

/-- On a healthy stream without limit the tagged pair of an `int` and a
string is laid out as the pair identity, the raw `int`, then the string with
its length, in that order and without field identities. -/
theorem pair_write_layout (current idA idB : ClassId) (a : CInt) (s : List Byte)
    (hs : s.length < 2 ^ 64) (out : List Byte) (processClassId : Bool) :
    GenericWriter.ISPAIR.process current (GenericWriter.ISPOD.process idA)
        (GenericWriter.ISSTRING.process idB) (a, s) ⟨out, none, false⟩ processClassId
      = (true, ⟨out ++ ((if processClassId then current.wire else [])
          ++ (POD.repr a ++ (leBytes 8 s.length ++ s))), none, false⟩) := by
  cases processClassId <;>
    simp [process_const_item, GenericWriter.ISPAIR.process,
      ClassId.write_id_healthy, GenericWriter.ISPOD.pod_process_healthy,
      GenericWriter.ISSTRING.string_process_healthy _ _ hs]

/-! ## Shared-pointer read rule -/

/-- C19: on every stream and for every shared-pointer target, when the
null-pointer read rule started from a null raw pointer returns, the
shared-pointer read rule returns the same result, stream and identity stack:
when the result is true the target holds the newly read pointee, which is
non-null (a true result with a null pointer fails the assertion, and the
POD, string and container rules never produce one); when it is false the
target shared pointer is left as it was. An error the null-pointer rule
raises is passed on unchanged. -/
theorem shared_ptr_read_follows_null_rule {T : Type} (readIntoPtr : ReadIntoPtr T)
    (a : Option T) (str : IStream) (s : State) (processClassId : Bool) :
    (∀ r, GenericReader.ISNULLPOINTER.process readIntoPtr none str s processClassId = .ok r →
      (r.status = true → ∀ v, r.target = some v →
        GenericReader.ISSHAREDPTR.process readIntoPtr a str s processClassId
          = .ok ⟨true, some v, r.str, r.state⟩) ∧
      (r.status = false →
        GenericReader.ISSHAREDPTR.process readIntoPtr a str s processClassId
          = .ok ⟨false, a, r.str, r.state⟩) ∧
      (r.status = true → r.target = none →
        GenericReader.ISSHAREDPTR.process readIntoPtr a str s processClassId
          = .error .assertFailed)) ∧
    (∀ e, GenericReader.ISNULLPOINTER.process readIntoPtr none str s processClassId
        = .error e →
      GenericReader.ISSHAREDPTR.process readIntoPtr a str s processClassId = .error e) ∧
    (∀ (P : Type) (_ : POD P) (current : ClassId) (r : Out (Option P)),
      GenericReader.ISNULLPOINTER.process (GenericReader.ISPOD.readIntoPtr current) none str s
          processClassId = .ok r →
        r.status = true → ∃ v, r.target = some v) ∧
    (∀ (current : ClassId) (r : Out (Option (List Byte))),
      GenericReader.ISNULLPOINTER.process (GenericReader.ISSTRING.readIntoPtr current) none
          str s processClassId = .ok r →
        r.status = true → ∃ v, r.target = some v) ∧
    (∀ (C : Type) (processItem : ReadRule C) (fresh : C) (r : Out (Option C)),
      GenericReader.ISNULLPOINTER.process
          (GenericReader.ISSTDCONTAINER.readIntoPtr processItem fresh) none str s
          processClassId = .ok r →
        r.status = true → ∃ v, r.target = some v) := by
  refine ⟨?_, ?_, ?_, ?_, ?_⟩
  · intro r h
    unfold GenericReader.ISSHAREDPTR.process
    rw [h]
    refine ⟨?_, ?_, ?_⟩
    · intro hs v hv
      simp [hs, hv]
    · intro hs
      simp [hs]
    · intro hs hv
      simp [hs, hv]
  · intro e h
    unfold GenericReader.ISSHAREDPTR.process
    rw [h]
  · intro P _ current r h hs
    unfold GenericReader.ISNULLPOINTER.process GenericReader.ISPOD.readIntoPtr at h
    split at h
    · cases h
    · dsimp only at h
      split at h
      · cases h
        cases hs
      · cases h
        exact ⟨_, rfl⟩
  · intro current r h hs
    unfold GenericReader.ISNULLPOINTER.process GenericReader.ISSTRING.readIntoPtr at h
    split at h
    · cases h
    · dsimp only at h
      split at h
      · cases h
        cases hs
      · cases h
        exact ⟨_, rfl⟩
  · intro C processItem fresh r h hs
    unfold GenericReader.ISNULLPOINTER.process GenericReader.ISSTDCONTAINER.readIntoPtr at h
    simp only at h
    split at h
    · cases h
    · split at h
      · cases h
        cases hs
      · cases h
        exact ⟨_, rfl⟩

/-- A shared pointer to an `int` read without tag: from four chars the
target, which held 7, holds the 5 just read; from two chars the rule returns
false and the target still holds 7. -/
theorem shared_ptr_read_follows_null_rule_witness :
    GenericReader.ISSHAREDPTR.process (GenericReader.ISPOD.readIntoPtr intId) (some seven)
        (IStream.ofBytes [5, 0, 0, 0]) [] false
      = .ok ⟨true, some five, IStream.ofBytes [], []⟩ ∧
    GenericReader.ISSHAREDPTR.process (GenericReader.ISPOD.readIntoPtr intId) (some seven)
        (IStream.ofBytes [5, 0]) [] false
      = .ok ⟨false, some seven, ⟨[], true⟩, []⟩ :=
  ⟨((shared_ptr_read_follows_null_rule (GenericReader.ISPOD.readIntoPtr intId) (some seven)
      (IStream.ofBytes [5, 0, 0, 0]) [] false).1
      ⟨true, some five, IStream.ofBytes [], []⟩ rfl).1 rfl five rfl,
    ((shared_ptr_read_follows_null_rule (GenericReader.ISPOD.readIntoPtr intId) (some seven)
      (IStream.ofBytes [5, 0]) [] false).1
      ⟨false, none, ⟨[], true⟩, []⟩ rfl).2.1 rfl⟩

/-! ## The POD read rule and its destination pointer -/

/-- C20: for the POD read-into-pointer rule on every stream, whenever the
rule returns: the result is false exactly when the stream is in its fail
state after the raw read; a null destination pointer becomes non-null, the
address of a fresh instance holding the value read, exactly when the result
is true, and stays null (the fresh instance being deleted) when the result is
false; a non-null destination pointer is the same address afterwards. With
identity reading off the rule always returns. The rule over values agrees
with the rule over addresses. -/
theorem pod_readIntoPtr_destination {T : Type} [POD T] (current : ClassId) (mem : Store T)
    (fresh : Nat) (ptr : Option Nat) (str : IStream) (s : State) (processClassId : Bool) :
    (∀ r mem1, GenericReader.ISPOD.readIntoPtrAt current mem fresh ptr str s processClassId
        = .ok (r, mem1) →
      (r.status = false ↔ r.str.fail = true) ∧
      (ptr = none →
        (r.status = true ↔ r.target ≠ none) ∧
        (r.status = true → r.target = some fresh ∧
          mem1 fresh = some (read_pod (if processClassId then (ClassId.read str).2 else str)
            (POD.init : T)).1) ∧
        (r.status = false → r.target = none ∧ mem1 fresh = none)) ∧
      (∀ p, ptr = some p → r.target = some p) ∧
      ((∀ p, ptr = some p → (mem p).isSome = true) →
        GenericReader.ISPOD.readIntoPtr current (ptr.bind mem) str s processClassId
          = .ok ⟨r.status, r.target.bind mem1, r.str, r.state⟩)) ∧
    (processClassId = false →
      ∃ r mem1, GenericReader.ISPOD.readIntoPtrAt current mem fresh ptr str s processClassId
        = .ok (r, mem1)) := by
  unfold GenericReader.ISPOD.readIntoPtrAt GenericReader.ISPOD.readIntoPtr
  have hchk : ∀ str1,
      (if processClassId = true then
        Except.map (fun _ => (ClassId.read str).2)
          (current.ensureSameName (ClassId.read str).1)
      else Except.ok str) = Except.ok str1 →
      str1 = (if processClassId then (ClassId.read str).2 else str) := by
    intro str1 heq
    cases processClassId
    · simp at heq
      simp [heq]
    · cases hn : current.ensureSameName (ClassId.read str).1 with
      | error e => simp [hn, Except.map] at heq
      | ok u =>
        simp [hn, Except.map] at heq
        simp [heq]
  generalize hc : (if processClassId = true then
        Except.map (fun _ => (ClassId.read str).2)
          (current.ensureSameName (ClassId.read str).1)
      else Except.ok str) = chk at hchk ⊢
  constructor
  · intro r mem1 h
    cases chk with
    | error e => simp at h
    | ok str1 =>
      have hstr := hchk str1 rfl
      cases ptr with
      | none =>
        simp only [Option.isNone_none, if_true, Option.getD_none] at h
        have hinit : (Store.set mem fresh (POD.init : T) fresh).getD POD.init = POD.init := by
          simp [Store.set]
        rw [hinit] at h
        split at h
        · rename_i hfail
          cases h
          simp [hfail, Store.erase]
        · rename_i hfail
          cases h
          simp [hfail, Store.set, ← hstr]
      | some p =>
        simp only [Option.isNone_some, Bool.false_eq_true, if_false, Option.getD_some] at h
        split at h
        · rename_i hfail
          cases h
          refine ⟨by simp [hfail], by simp, by simp, ?_⟩
          intro hlive
          have hl := hlive p rfl
          cases hm : mem p with
          | none => simp [hm] at hl
          | some t =>
            simp only [hm, Option.getD_some] at hfail
            simp [hm, Store.set, hfail]
        · rename_i hfail
          cases h
          refine ⟨by simp [hfail], by simp, by simp, ?_⟩
          intro hlive
          have hl := hlive p rfl
          cases hm : mem p with
          | none => simp [hm] at hl
          | some t =>
            simp only [hm, Option.getD_some] at hfail
            simp [hm, Store.set, hfail]
  · intro hf
    subst hf
    simp only [Bool.false_eq_true, if_false] at hc
    subst hc
    cases ptr <;>
      (simp only [Option.isNone_none, Option.isNone_some, if_true, Bool.false_eq_true,
        if_false]
       split <;> exact ⟨_, _, rfl⟩)

/-- Reading the `int` 5 without tag, with the store holding 7 at address 1
and 2 as the next fresh address: into the pointer 1 the pointer stays 1 and
the object at 1 holds 5; into a null pointer the pointer becomes 2; from a
stream of two chars a null pointer stays null and address 2 is not live. -/
theorem pod_readIntoPtr_destination_witness :
    GenericReader.ISPOD.readIntoPtrAt intId storeSevenAtOne 2 (some 1)
        (IStream.ofBytes [5, 0, 0, 0]) [] false
      = .ok (⟨true, some 1, IStream.ofBytes [], []⟩, storeSevenAtOne.set 1 five) ∧
    (∀ p, some 1 = some p →
      (⟨true, some 1, IStream.ofBytes [], []⟩ : Out (Option Nat)).target = some p) ∧
    GenericReader.ISPOD.readIntoPtrAt intId storeSevenAtOne 2 none
        (IStream.ofBytes [5, 0, 0, 0]) [] false
      = .ok (⟨true, some 2, IStream.ofBytes [], []⟩,
          (storeSevenAtOne.set 2 (toCInt 0)).set 2 five) ∧
    (∃ r mem1, GenericReader.ISPOD.readIntoPtrAt intId storeSevenAtOne 2 none
        (IStream.ofBytes [5, 0]) [] false = .ok (r, mem1) ∧
      r.status = false ∧ r.target = none ∧ mem1 2 = none) :=
  ⟨rfl,
    ((pod_readIntoPtr_destination intId storeSevenAtOne 2 (some 1)
      (IStream.ofBytes [5, 0, 0, 0]) [] false).1
      ⟨true, some 1, IStream.ofBytes [], []⟩ (storeSevenAtOne.set 1 five) rfl).2.2.1,
    rfl,
    ⟨_, _, rfl, rfl, rfl, rfl⟩⟩

/-! ## How the internal rules report failure -/

theorem GenericReader.InPODArray.processMax_within {T : Type} [POD T] (maxSize : Nat)
    (a : List T) (str : IStream) (s : State) (b : Bool)
    (h : (read_pod str (toSizeT 0)).2.fail = true ∨
      (read_pod str (toSizeT 0)).1.val ≤ maxSize) :
    GenericReader.InPODArray.processMax maxSize a str s b
      = GenericReader.InPODArray.process a str s b := by
  unfold GenericReader.InPODArray.processMax GenericReader.InPODArray.process
  simp only
  split
  · rfl
  · rename_i hf
    have hle : (read_pod str (toSizeT 0)).1.val ≤ maxSize := by
      rcases h with h | h
      · exact absurd h hf
      · exact h
    rw [if_neg (Nat.not_lt.mpr hle)]

/-- Internal rules that do not report a failure by returning false. The
pair read rule raises `IOInvalidData` by itself: read without tag while the
identity of `int` is on top of the stack, on a healthy stream holding a
well-formed pair. The POD read rule raises it too, on the healthy stream of
an `int` written with its identity tag and read as an `unsigned`. The bulk
read rule of a `std::vector<int>` with a `max_size()` of `2 ^ 61 - 1` ends on
the `std::length_error` of `resize` when the size field holds `2 ^ 62`. The
container-header read rule of a `std::list<int>` on an empty stream returns
true although the stream is in its fail state afterwards. -/
theorem internal_rules_do_raise :
    GenericReader.ISPAIR.readIntoPtr pairIntStringId (GenericReader.ISPOD.process intId)
        (GenericReader.ISSTRING.process stringId) (toCInt 0, []) none
        (IStream.ofBytes [5, 0, 0, 0, 1, 0, 0, 0, 0, 0, 0, 0, 120]) [intId] false
      = .error (.IOInvalidData
          "In gs::GenericReader::readIntoPtr: bad class id for std::pair on the class id stack: int") ∧
    GenericReader.ISPOD.readIntoPtr unsignedId (none : Option Unsigned)
        (IStream.ofBytes (write_item (GenericWriter.ISPOD.process intId) OStream.empty five
          true).2.out) [] true
      = .error (.IOInvalidData "In gs::ClassId::ensureSameName: class name mismatch") ∧
    GenericReader.InPODArray.processMax (2 ^ 61 - 1) ([] : List CInt)
        (IStream.ofBytes [0, 0, 0, 0, 0, 0, 0, 64]) [] false
      = .error .lengthError ∧
    GenericReader.InContainerHeader.process listIntId true false ([five] : List CInt)
        (IStream.ofBytes []) [] false
      = .ok ⟨true, [], ⟨[], true⟩, [ClassId.mk [] 0 []]⟩ :=
  ⟨rfl, rfl, rfl, rfl⟩

/-- C13, as the code has it: the internal rules do not report every failure
by returning false. The POD and string read rules with identity reading off
always return, with a false result exactly when the stream is failed after
the raw read; with identity reading on they raise `IOInvalidData` by
themselves exactly when the name check fails and otherwise return the same
way. The bulk read rule ends on the `std::length_error` of `resize` when the
size field read is beyond `max_size()`, and otherwise returns, with a false
result exactly when the stream is failed. The pair rule read from the stack
raises `IOInvalidData` by itself when the top identity has not two template
parameters, and otherwise returns whenever the field rules return. The
heap-readable rule returns false when the factory hands back null. The
container-header read rule and the place-readable rule return true whenever
they return, whatever the state of the stream: the header of a contiguous
POD container hands back the stream it was given, failed or not, and the
place-readable rule the stream `restore` left. The POD write rule returns
false exactly when the stream is failed after it. The verbs `restore_item`,
`read_item` and `read_array` turn a failed stream into `IOReadFailure` and a
false or null result on a healthy stream into `IOInvalidData`, and pass on
an error raised below them. -/
theorem internal_rules_failure_reporting {T A B : Type} [POD T] (current : ClassId)
    (ptr : Option T) (sptr : Option (List Byte)) (str : IStream) (s : State) :
    (∃ r, GenericReader.ISPOD.readIntoPtr current ptr str s false = .ok r ∧
      (r.status = false ↔ r.str.fail = true)) ∧
    (∃ r, GenericReader.ISSTRING.readIntoPtr current sptr str s false = .ok r ∧
      (r.status = false ↔ r.str.fail = true)) ∧
    (∀ (maxSize : Nat) (a : List T) (b : Bool),
      ((read_pod str (toSizeT 0)).2.fail = false →
        maxSize < (read_pod str (toSizeT 0)).1.val →
        GenericReader.InPODArray.processMax maxSize a str s b = .error .lengthError) ∧
      (((read_pod str (toSizeT 0)).2.fail = true ∨
          (read_pod str (toSizeT 0)).1.val ≤ maxSize) →
        ∃ r, GenericReader.InPODArray.processMax maxSize a str s b = .ok r ∧
          GenericReader.InPODArray.process a str s b = .ok r ∧
          (r.status = false ↔ r.str.fail = true))) ∧
    ((current.name = (ClassId.read str).1.name →
        (∃ r, GenericReader.ISPOD.readIntoPtr current ptr str s true = .ok r ∧
          (r.status = false ↔ r.str.fail = true)) ∧
        (∃ r, GenericReader.ISSTRING.readIntoPtr current sptr str s true = .ok r ∧
          (r.status = false ↔ r.str.fail = true))) ∧
      (current.name ≠ (ClassId.read str).1.name →
        GenericReader.ISPOD.readIntoPtr current ptr str s true
          = .error (.IOInvalidData "In gs::ClassId::ensureSameName: class name mismatch") ∧
        GenericReader.ISSTRING.readIntoPtr current sptr str s true
          = .error (.IOInvalidData "In gs::ClassId::ensureSameName: class name mismatch"))) ∧
    (∀ (readFirst : ReadRule A) (readSecond : ReadRule B) (fresh : A × B)
        (pp : Option (A × B)) (back : ClassId), s.getLast? = some back →
      (back.templateParameters.length ≠ 2 →
        GenericReader.ISPAIR.readIntoPtr current readFirst readSecond fresh pp str s false
          = .error (.IOInvalidData
            ("In gs::GenericReader::readIntoPtr: bad class id for std::pair on the class id stack: "
              ++ back.id))) ∧
      (back.templateParameters.length = 2 →
        (∀ x i st f, ∃ r, readFirst x i st f = .ok r) →
        (∀ x i st f, ∃ r, readSecond x i st f = .ok r) →
        ∃ r, GenericReader.ISPAIR.readIntoPtr current readFirst readSecond fresh pp str s
          false = .ok r)) ∧
    (∀ (read : ClassId → IStream → Except Raised (Option T × IStream)) (str1 : IStream),
      (read (ClassId.read str).1 (ClassId.read str).2 = .ok (none, str1) →
        GenericReader.ISHEAPREADABLE.readIntoPtr read ptr str s true
          = .ok ⟨false, ptr, str1, s⟩) ∧
      (∀ back, s.getLast? = some back → read back str = .ok (none, str1) →
        GenericReader.ISHEAPREADABLE.readIntoPtr read ptr str s false
          = .ok ⟨false, ptr, str1, s⟩)) ∧
    ((∀ (vb : List T),
        GenericReader.InContainerHeader.process current true true vb str s false
          = .ok ⟨true, [], str, s⟩) ∧
      (∀ (isPOD isContiguous : Bool) (vb : List T) (f : Bool) (r : Out (List T)),
        GenericReader.InContainerHeader.process current isPOD isContiguous vb str s f = .ok r →
        r.status = true)) ∧
    (∀ (restore : ClassId → IStream → T → Except Raised (T × IStream)) (fresh : T) (f : Bool),
      (∀ r, GenericReader.ISPLACEREADABLE.readIntoPtr restore fresh ptr str s f = .ok r →
        r.status = true) ∧
      (∀ v str1, restore (ClassId.read str).1 (ClassId.read str).2 (ptr.getD fresh)
          = .ok (v, str1) →
        GenericReader.ISPLACEREADABLE.readIntoPtr restore fresh ptr str s true
          = .ok ⟨true, some v, str1, s⟩)) ∧
    (∀ (v : T) (os : OStream) (f : Bool),
      ((GenericWriter.ISPOD.process current v os f).1 = false ↔
        (GenericWriter.ISPOD.process current v os f).2.fail = true)) ∧
    (∀ (readIntoPtr : ReadIntoPtr T) (t : T) (f : Bool),
      (∀ r, GenericReader.ISPOINTER.process readIntoPtr (some t) str [] f = .ok r →
        (r.str.fail = true → restore_item readIntoPtr str (some t) f
          = .error (.IOReadFailure "In gs::restore_item: input stream failure")) ∧
        (r.str.fail = false → r.status = false → restore_item readIntoPtr str (some t) f
          = .error (.IOInvalidData "In gs::restore_item: invalid input stream data"))) ∧
      (∀ r, GenericReader.ISNULLPOINTER.process readIntoPtr none str [] f = .ok r →
        (r.str.fail = true → read_item readIntoPtr str f
          = .error (.IOReadFailure "In gs::read_item: input stream failure")) ∧
        (r.str.fail = false → (r.status = false ∨ r.target = none) →
          read_item readIntoPtr str f
            = .error (.IOInvalidData "In gs::read_item: invalid input stream data"))) ∧
      (∀ e, GenericReader.ISPOINTER.process readIntoPtr (some t) str [] f = .error e →
        restore_item readIntoPtr str (some t) f = .error e) ∧
      (∀ e, GenericReader.ISNULLPOINTER.process readIntoPtr none str [] f = .error e →
        read_item readIntoPtr str f = .error e)) ∧
    (∀ (rule : ReadRule (ArrayAdaptor T)) (items : List T) (length : Nat),
      (∀ r, process_item rule ⟨items, length⟩ str [] false = .ok r →
        (r.str.fail = true → read_array rule str items length
          = .error (.IOReadFailure "In gs::read_array: input stream failure")) ∧
        (r.str.fail = false → r.status = false → read_array rule str items length
          = .error (.IOInvalidData "In gs::read_array: invalid input stream data"))) ∧
      (∀ e, process_item rule ⟨items, length⟩ str [] false = .error e →
        read_array rule str items length = .error e)) := by
  have hpod : ∀ (str1 : IStream),
      ∃ r, (let r := read_pod str1 (ptr.getD (POD.init : T))
          if r.2.fail then
            (Except.ok ⟨false, ptr.map (fun _ => r.1), r.2, s⟩ : Except Raised (Out (Option T)))
          else .ok ⟨true, some r.1, r.2, s⟩) = .ok r ∧
        (r.status = false ↔ r.str.fail = true) := by
    intro str1
    simp only
    split
    · rename_i hf
      exact ⟨_, rfl, by simp [hf]⟩
    · rename_i hf
      exact ⟨_, rfl, by simp [hf]⟩
  have hstring : ∀ (str1 : IStream),
      ∃ r, (let r := read_string str1 (sptr.getD [])
          if r.2.fail then
            (Except.ok ⟨false, sptr.map (fun _ => r.1), r.2, s⟩ :
              Except Raised (Out (Option (List Byte))))
          else .ok ⟨true, some r.1, r.2, s⟩) = .ok r ∧
        (r.status = false ↔ r.str.fail = true) := by
    intro str1
    simp only
    split
    · rename_i hf
      exact ⟨_, rfl, by simp [hf]⟩
    · rename_i hf
      exact ⟨_, rfl, by simp [hf]⟩
  have hbulk : ∀ (a : List T) (b : Bool),
      ∃ r, GenericReader.InPODArray.process a str s b = .ok r ∧
        (r.status = false ↔ r.str.fail = true) := by
    intro a b
    unfold GenericReader.InPODArray.process
    simp only
    split
    · rename_i hf
      exact ⟨_, rfl, by simp [hf]⟩
    · rename_i hf
      split
      · exact ⟨_, rfl, by simpa using hf⟩
      · exact ⟨_, rfl, by simp⟩
  refine ⟨?_, ?_, ?_, ⟨?_, ?_⟩, ?_, ?_, ⟨?_, ?_⟩, ?_, ?_, ?_, ?_⟩
  · simpa [GenericReader.ISPOD.readIntoPtr] using hpod str
  · simpa [GenericReader.ISSTRING.readIntoPtr] using hstring str
  · intro maxSize a b
    constructor
    · intro hf hlt
      simp [GenericReader.InPODArray.processMax, hf, hlt]
    · intro h
      obtain ⟨r, hr, hiff⟩ := hbulk a b
      exact ⟨r, by rw [GenericReader.InPODArray.processMax_within maxSize a str s b h, hr],
        hr, hiff⟩
  · intro hname
    constructor
    · simpa [GenericReader.ISPOD.readIntoPtr, ClassId.ensureSameName, hname, Except.map]
        using hpod (ClassId.read str).2
    · simpa [GenericReader.ISSTRING.readIntoPtr, ClassId.ensureSameName, hname, Except.map]
        using hstring (ClassId.read str).2
  · intro hname
    constructor
    · simp [GenericReader.ISPOD.readIntoPtr, ClassId.ensureSameName, hname, Except.map]
    · simp [GenericReader.ISSTRING.readIntoPtr, ClassId.ensureSameName, hname, Except.map]
  · intro readFirst readSecond fresh pp back hback
    constructor
    · intro hlen
      simp [GenericReader.ISPAIR.readIntoPtr, hback, hlen]
    · intro hlen hrf hrs
      obtain ⟨s0, s1, hps⟩ : ∃ s0 s1, back.templateParameters = [s0, s1] := by
        match hm : back.templateParameters with
        | [] => simp [hm] at hlen
        | [_] => simp [hm] at hlen
        | [x, y] => exact ⟨x, y, rfl⟩
        | _ :: _ :: _ :: _ => simp [hm] at hlen
      simp only [GenericReader.ISPAIR.readIntoPtr, hback, hps, process_item,
        Bool.false_eq_true, if_false, List.length_cons, List.length_nil, ne_eq,
        not_true_eq_false, List.getD_cons_zero, List.getD_cons_succ]
      obtain ⟨r1, h1⟩ := hrf (pp.getD fresh).1 str s0 false
      rw [h1]
      cases hs1 : r1.status
      · simp only [hs1, Bool.false_eq_true, if_false]
        exact ⟨_, rfl⟩
      · obtain ⟨r2, h2⟩ := hrs (pp.getD fresh).2 r1.str s1 false
        simp only [hs1, h2, if_true]
        cases hs2 : r2.status
        · simp only [hs2, Bool.false_eq_true, if_false]
          exact ⟨_, rfl⟩
        · simp only [hs2, if_true]
          exact ⟨_, rfl⟩
  · intro read str1
    constructor
    · intro h
      simp [GenericReader.ISHEAPREADABLE.readIntoPtr, h]
    · intro back hback h
      simp [GenericReader.ISHEAPREADABLE.readIntoPtr, hback, h]
  · intro vb
    simp [GenericReader.InContainerHeader.process]
  · intro isPOD isContiguous vb f r h
    unfold GenericReader.InContainerHeader.process at h
    split at h
    · cases h
    · split at h <;> (cases h; rfl)
  · intro restore fresh f
    constructor
    · intro r h
      unfold GenericReader.ISPLACEREADABLE.readIntoPtr at h
      simp only at h
      split at h
      · cases h
      · cases h; rfl
    · intro v str1 h
      simp [GenericReader.ISPLACEREADABLE.readIntoPtr, h]
  · intro v os f
    cases f
    · simp [GenericWriter.ISPOD.process]
    · simp only [GenericWriter.ISPOD.process, ClassId.write, if_true]
      cases hf : (os.write current.wire).fail
      · simp [hf]
      · simp [hf]
  · intro readIntoPtr t f
    refine ⟨?_, ?_, ?_, ?_⟩
    · intro r h
      constructor
      · intro hf
        simp [restore_item, h, hf]
      · intro hf hs
        simp [restore_item, h, hs, hf]
    · intro r h
      constructor
      · intro hf
        simp [read_item, h, hf]
      · intro hf hs
        rcases hs with hs | hs <;> simp [read_item, h, hs, hf]
    · intro e h
      simp [restore_item, h]
    · intro e h
      simp [read_item, h]
  · intro rule items length
    constructor
    · intro r h
      constructor
      · intro hf
        simp [read_array, h, hf]
      · intro hf hs
        simp [read_array, h, hs, hf]
    · intro e h
      simp [read_array, h]
/-- On the eight chars of the size field `2 ^ 62`, with the identity of `int`
on top of the stack: the bulk read rule of a vector with a `max_size()` of
`2 ^ 61 - 1` ends on `std::length_error`, and the pair rule read from the
stack raises `IOInvalidData`. -/
theorem internal_rules_failure_reporting_witness :
    (read_pod (IStream.ofBytes [0, 0, 0, 0, 0, 0, 0, 64]) (toSizeT 0)).2.fail = false ∧
    2 ^ 61 - 1 < (read_pod (IStream.ofBytes [0, 0, 0, 0, 0, 0, 0, 64]) (toSizeT 0)).1.val ∧
    GenericReader.InPODArray.processMax (2 ^ 61 - 1) ([] : List CInt)
        (IStream.ofBytes [0, 0, 0, 0, 0, 0, 0, 64]) [intId] false
      = .error .lengthError ∧
    [intId].getLast? = some intId ∧ intId.templateParameters.length ≠ 2 ∧
    GenericReader.ISPAIR.readIntoPtr pairIntStringId (GenericReader.ISPOD.process intId)
        (GenericReader.ISSTRING.process stringId) (toCInt 0, []) none
        (IStream.ofBytes [0, 0, 0, 0, 0, 0, 0, 64]) [intId] false
      = .error (.IOInvalidData
          ("In gs::GenericReader::readIntoPtr: bad class id for std::pair on the class id stack: "
            ++ intId.id)) :=
  ⟨by decide, by decide,
    ((@internal_rules_failure_reporting CInt CInt (List Byte) _ pairIntStringId none none
      (IStream.ofBytes [0, 0, 0, 0, 0, 0, 0, 64]) [intId]).2.2.1 (2 ^ 61 - 1) [] false).1
      (by decide) (by decide),
    rfl, by decide,
    ((@internal_rules_failure_reporting CInt CInt (List Byte) _ pairIntStringId none none
      (IStream.ofBytes [0, 0, 0, 0, 0, 0, 0, 64]) [intId]).2.2.2.2.1
      (GenericReader.ISPOD.process intId) (GenericReader.ISSTRING.process stringId)
      (toCInt 0, []) none intId rfl).1 (by decide)⟩

/-! ## Element cycle -/

/-- C21: in the element cycle, when at most one of the element-type flags
(pointer, shared pointer, heap-readable) is set, the computed index is 1 for
a bare pointer, 2 for a shared pointer, 3 for a heap-readable type and 4
when no flag is set, and the cycle applies the element rule of that index
and no other: its outcome is the outcome of that rule. -/
theorem cycle_index_selects_rule {C : Type} (process2 : Nat → CycleRule C) (obj : C)
    (is : IStream) (st : State) (itemN : Nat) :
    GenericReader.InContainerCycle.index true false false = 1 ∧
    GenericReader.InContainerCycle.index false true false = 2 ∧
    GenericReader.InContainerCycle.index false false true = 3 ∧
    GenericReader.InContainerCycle.index false false false = 4 ∧
    GenericReader.InContainerCycle.process true false false process2 obj is st itemN
      = process2 1 obj is st itemN ∧
    GenericReader.InContainerCycle.process false true false process2 obj is st itemN
      = process2 2 obj is st itemN ∧
    GenericReader.InContainerCycle.process false false true process2 obj is st itemN
      = process2 3 obj is st itemN ∧
    GenericReader.InContainerCycle.process false false false process2 obj is st itemN
      = process2 4 obj is st itemN ∧
    (∀ p sh h : Bool, p.toNat + sh.toNat + h.toNat ≤ 1 →
      (GenericReader.InContainerCycle.index p sh h = 1 ↔ p = true) ∧
      (GenericReader.InContainerCycle.index p sh h = 2 ↔ sh = true) ∧
      (GenericReader.InContainerCycle.index p sh h = 3 ↔ h = true) ∧
      (GenericReader.InContainerCycle.index p sh h = 4 ↔
        (p = false ∧ sh = false ∧ h = false))) := by
  refine ⟨rfl, rfl, rfl, rfl, rfl, rfl, rfl, rfl, ?_⟩
  intro p sh h hle
  cases p <;> cases sh <;> cases h <;>
    simp [GenericReader.InContainerCycle.index] at hle ⊢

/-- C22: in the element cycle for a heap-readable element type, with `back`
on top of a non-empty identity stack, the outcome is fixed by the factory
called with `back` and the stream: the rule returns true exactly when the
factory hands back a non-null object, a copy of which is then inserted at the
given position; when the factory hands back null the result is false and the
container is as it was; the identity stack is unchanged in both cases. An
error the factory raises is passed on. -/
theorem cycle_heap_readable_element {C I : Type} (insert : C → I → Nat → C)
    (read : ClassId → IStream → Except Raised (Option I × IStream)) (obj : C)
    (is : IStream) (st : State) (itemN : Nat) (back : ClassId)
    (hback : st.getLast? = some back) :
    (∀ v is1, read back is = .ok (some v, is1) →
      GenericReader.InContainerCycle.process2_3 insert read obj is st itemN
        = .ok ⟨true, insert obj v itemN, is1, st⟩) ∧
    (∀ is1, read back is = .ok (none, is1) →
      GenericReader.InContainerCycle.process2_3 insert read obj is st itemN
        = .ok ⟨false, obj, is1, st⟩) ∧
    (∀ e, read back is = .error e →
      GenericReader.InContainerCycle.process2_3 insert read obj is st itemN = .error e) ∧
    (∀ r, GenericReader.InContainerCycle.process2_3 insert read obj is st itemN = .ok r →
      r.state = st ∧ (r.status = true ↔ ∃ v is1, read back is = .ok (some v, is1)) ∧
      (r.status = false → r.target = obj)) := by
  unfold GenericReader.InContainerCycle.process2_3
  simp only [hback]
  refine ⟨?_, ?_, ?_, ?_⟩
  · intro v is1 h
    simp [h]
  · intro is1 h
    simp [h]
  · intro e h
    simp [h]
  · intro r h
    cases hr : read back is with
    | error e => simp [hr] at h
    | ok p =>
      obtain ⟨rb, is1⟩ := p
      cases rb with
      | none =>
        simp [hr] at h
        subst h
        simp
      | some v =>
        simp [hr] at h
        subst h
        simp

/-- A `std::vector` holding 7, an `int` factory and the identity of `int` on
the stack: from four chars the 5 read is appended and the result is true;
from two chars the factory hands back null, the result is false and the
container still holds 7 only. The stack is the same afterwards. -/
theorem cycle_heap_readable_element_witness :
    [intId].getLast? = some intId ∧
    GenericReader.InContainerCycle.process2_3 pushBack readIntFactory [seven]
        (IStream.ofBytes [5, 0, 0, 0]) [intId] 1
      = .ok ⟨true, [seven, five], IStream.ofBytes [], [intId]⟩ ∧
    GenericReader.InContainerCycle.process2_3 pushBack readIntFactory [seven]
        (IStream.ofBytes [5, 0]) [intId] 1
      = .ok ⟨false, [seven], ⟨[], true⟩, [intId]⟩ :=
  ⟨rfl,
    (cycle_heap_readable_element pushBack readIntFactory [seven]
      (IStream.ofBytes [5, 0, 0, 0]) [intId] 1 intId rfl).1 five (IStream.ofBytes []) rfl,
    (cycle_heap_readable_element pushBack readIntFactory [seven]
      (IStream.ofBytes [5, 0]) [intId] 1 intId rfl).2.1 ⟨[], true⟩ rfl⟩

/-! ## Place-readable rule -/

/-- C23: the place-readable read-into-pointer rule has no false result.
Whenever it returns, on any stream, the result is true, the identity stack is
as it was and the destination pointer is non-null: the address of the freshly
allocated instance if it was null, the same address otherwise. It returns
whenever the `restore` of the type does not raise and the identity comes from
a parsed tag or from a non-empty stack, so a failure of `restore` shows in the
fail state of the stream only. The rule over values agrees with the rule over
addresses. -/
theorem place_readable_result_true {T : Type}
    (restore : ClassId → IStream → T → Except Raised (T × IStream)) (init : T)
    (mem : Store T) (fresh : Nat) (ptr : Option Nat) (str : IStream) (s : State)
    (processClassId : Bool) :
    (∀ r mem1, GenericReader.ISPLACEREADABLE.readIntoPtrAt restore init mem fresh ptr str s
        processClassId = .ok (r, mem1) →
      r.status = true ∧ r.state = s ∧
      (ptr = none → r.target = some fresh ∧ (mem1 fresh).isSome = true) ∧
      (∀ p, ptr = some p → r.target = some p ∧ (mem1 p).isSome = true) ∧
      GenericReader.ISPLACEREADABLE.readIntoPtr restore init (ptr.bind mem) str s
          processClassId
        = .ok ⟨r.status, r.target.bind mem1, r.str, r.state⟩) ∧
    ((∀ id is t, ∃ x, restore id is t = .ok x) →
      (processClassId = true ∨ s ≠ []) →
      ∃ r mem1, GenericReader.ISPLACEREADABLE.readIntoPtrAt restore init mem fresh ptr str s
        processClassId = .ok (r, mem1)) := by
  unfold GenericReader.ISPLACEREADABLE.readIntoPtrAt GenericReader.ISPLACEREADABLE.readIntoPtr
  constructor
  · intro r mem1 h
    cases ptr with
    | none =>
      simp only [Option.isNone_none, if_true, Option.getD_none, Option.bind_none] at h ⊢
      have hinit : (Store.set mem fresh init fresh).getD init = init := by
        simp [Store.set]
      rw [hinit] at h
      cases processClassId
      · simp only [Bool.false_eq_true, if_false] at h ⊢
        cases hs : s.getLast? with
        | none => simp [hs] at h
        | some back =>
          simp only [hs] at h ⊢
          cases hr : restore back str init with
          | error e => simp [hr] at h
          | ok x =>
            simp [hr] at h
            obtain ⟨h1, h2⟩ := h
            subst h1 h2
            simp [Store.set, hr]
      · simp only [if_true] at h ⊢
        cases hr : restore (ClassId.read str).1 (ClassId.read str).2 init with
        | error e => simp [hr] at h
        | ok x =>
          simp [hr] at h
          obtain ⟨h1, h2⟩ := h
          subst h1 h2
          simp [Store.set, hr]
    | some p =>
      simp only [Option.isNone_some, Bool.false_eq_true, if_false, Option.getD_some,
        Option.bind_some] at h ⊢
      cases processClassId
      · simp only [Bool.false_eq_true, if_false] at h ⊢
        cases hs : s.getLast? with
        | none => simp [hs] at h
        | some back =>
          simp only [hs] at h ⊢
          cases hr : restore back str ((mem p).getD init) with
          | error e => simp [hr] at h
          | ok x =>
            simp [hr] at h
            obtain ⟨h1, h2⟩ := h
            subst h1 h2
            refine ⟨rfl, rfl, by simp, by simp [Store.set], ?_⟩
            simp [hr, Store.set]
      · simp only [if_true] at h ⊢
        cases hr : restore (ClassId.read str).1 (ClassId.read str).2 ((mem p).getD init) with
        | error e => simp [hr] at h
        | ok x =>
          simp [hr] at h
          obtain ⟨h1, h2⟩ := h
          subst h1 h2
          refine ⟨rfl, rfl, by simp, by simp [Store.set], ?_⟩
          simp [hr, Store.set]
  · intro hres hsrc
    cases processClassId
    · have hne : s ≠ [] := by
        cases hsrc with
        | inl h => cases h
        | inr h => exact h
      obtain ⟨back, hb⟩ : ∃ back, s.getLast? = some back := by
        cases hs : s.getLast? with
        | none => exact absurd (List.getLast?_eq_none_iff.mp hs) hne
        | some b => exact ⟨b, rfl⟩
      simp only [Bool.false_eq_true, if_false, hb]
      obtain ⟨x, hx⟩ := hres back str
        (((if ptr.isNone = true then mem.set fresh init else mem) (ptr.getD fresh)).getD init)
      rw [hx]
      exact ⟨_, _, rfl⟩
    · simp only [if_true]
      obtain ⟨x, hx⟩ := hres (ClassId.read str).1 (ClassId.read str).2
        (((if ptr.isNone = true then mem.set fresh init else mem) (ptr.getD fresh)).getD init)
      rw [hx]
      exact ⟨_, _, rfl⟩

/-- Restoring an `int` with identity tag from a stream of two chars into a
null pointer: the stream ends in its fail state and the rule returns true all
the same, with the pointer at the fresh address 2. Into the pointer 1,
without tag and with a non-empty stack, the pointer stays 1. -/
theorem place_readable_result_true_witness :
    GenericReader.ISPLACEREADABLE.readIntoPtrAt restoreInt (toCInt 0) storeSevenAtOne 2 none
        (IStream.ofBytes [5, 0]) [] true
      = .ok (⟨true, some 2, ⟨[], true⟩, []⟩,
          (storeSevenAtOne.set 2 (toCInt 0)).set 2 (toCInt 0)) ∧
    (⟨true, some 2, ⟨[], true⟩, []⟩ : Out (Option Nat)).status = true ∧
    GenericReader.ISPLACEREADABLE.readIntoPtrAt restoreInt (toCInt 0) storeSevenAtOne 2
        (some 1) (IStream.ofBytes [5, 0, 0, 0]) [intId] false
      = .ok (⟨true, some 1, IStream.ofBytes [], [intId]⟩, storeSevenAtOne.set 1 five) :=
  ⟨rfl,
    ((place_readable_result_true restoreInt (toCInt 0) storeSevenAtOne 2 none
      (IStream.ofBytes [5, 0]) [] true).1 ⟨true, some 2, ⟨[], true⟩, []⟩
      ((storeSevenAtOne.set 2 (toCInt 0)).set 2 (toCInt 0)) rfl).1,
    rfl⟩

/-! ## Heap-readable rules -/

/-- C26: `restore_item` and `read_item` start from an empty identity stack,
so with identity reading off on a pair, a heap-readable type or a
place-readable type the rule reaches its non-empty-stack assertion with an
empty stack: on every input stream the call ends on the failed assertion,
whatever the field rules, the factory or the `restore` of the type are, and
never returns. -/
theorem verbs_without_tag_fail_assertion {A B T : Type} (current : ClassId)
    (readFirst : ReadRule A) (readSecond : ReadRule B) (fresh : A × B) (p : A × B)
    (read : ClassId → IStream → Except Raised (Option T × IStream))
    (restore : ClassId → IStream → T → Except Raised (T × IStream)) (init t : T)
    (is : IStream) :
    restore_item (GenericReader.ISPAIR.readIntoPtr current readFirst readSecond fresh) is
        (some p) false = .error .assertFailed ∧
    read_item (GenericReader.ISPAIR.readIntoPtr current readFirst readSecond fresh) is
        false = .error .assertFailed ∧
    restore_item (GenericReader.ISHEAPREADABLE.readIntoPtr read) is (some t) false
      = .error .assertFailed ∧
    read_item (GenericReader.ISPUREHEAPREADABLE.readIntoPtr read) is false
      = .error .assertFailed ∧
    restore_item (GenericReader.ISPLACEREADABLE.readIntoPtr restore init) is (some t) false
      = .error .assertFailed ∧
    read_item (GenericReader.ISPLACEREADABLE.readIntoPtr restore init) is false
      = .error .assertFailed := by
  refine ⟨rfl, rfl, rfl, rfl, rfl, rfl⟩

/-- With identity reading on, the same calls on the stream of a tagged pair
`(5, "x")` return normally. -/
theorem verbs_with_tag_return :
    restore_item
        (GenericReader.ISPAIR.readIntoPtr pairIntStringId (GenericReader.ISPOD.process intId)
          (GenericReader.ISSTRING.process stringId) (toCInt 0, []))
        (IStream.ofBytes
          (write_item
            (GenericWriter.ISPAIR.process pairIntStringId (GenericWriter.ISPOD.process intId)
              (GenericWriter.ISSTRING.process stringId))
            OStream.empty (five, chars "x") true).2.out)
        (some (seven, [])) true
      = .ok (some (five, chars "x"), IStream.ofBytes []) := by
  rfl

/-! ## The pair rule and the caller's identity stack -/

/-- C27: for every stream and identity stack, the pair read-into-pointer rule
leaves the caller's identity stack as it was, whether it returns true,
returns false or raises, and whatever the field rules do to the identity
lists they are given. Read without tag it looks at the top entry only: on two
stacks with the same top entry the outcomes agree. The field rules are run on
the lists of the pair's template parameters, not on the caller's stack. -/
theorem pair_read_keeps_stack {A B : Type} (current : ClassId) (readFirst : ReadRule A)
    (readSecond : ReadRule B) (fresh : A × B) (ptr : Option (A × B)) (str : IStream)
    (s : State) (processClassId : Bool) :
    (GenericReader.ISPAIR.readIntoPtrStack current readFirst readSecond fresh ptr str s
        processClassId).2 = s ∧
    (GenericReader.ISPAIR.readIntoPtrStack current readFirst readSecond fresh ptr str s
        processClassId).1
      = GenericReader.ISPAIR.readIntoPtr current readFirst readSecond fresh ptr str s
        processClassId ∧
    (∀ r, GenericReader.ISPAIR.readIntoPtr current readFirst readSecond fresh ptr str s
        processClassId = .ok r → r.state = s) ∧
    (∀ s2 : State, s2.getLast? = s.getLast? →
      (GenericReader.ISPAIR.readIntoPtr current readFirst readSecond fresh ptr str s2
          false).map (fun r => (r.status, r.target, r.str))
        = (GenericReader.ISPAIR.readIntoPtr current readFirst readSecond fresh ptr str s
          false).map (fun r => (r.status, r.target, r.str))) := by
  have hshape : ∀ (ids : Except Raised (List State × IStream)),
      ((match ((ids, s) : Except Raised (List State × IStream) × State) with
        | (.error e, s1) => ((.error e : Except Raised (Out (Option (A × B)))), s1)
        | (.ok (itemIds, str1), s1) =>
          match process_item readFirst (ptr.getD fresh).1 str1 (itemIds.getD 0 []) false with
          | .error e => (.error e, s1)
          | .ok r1 =>
            if r1.status then
              match process_item readSecond (ptr.getD fresh).2 r1.str (itemIds.getD 1 [])
                  false with
              | .error e => (.error e, s1)
              | .ok r2 =>
                if r2.status then (.ok ⟨true, some (r1.target, r2.target), r2.str, s1⟩, s1)
                else
                  (.ok ⟨false, ptr.map (fun _ => (r1.target, r2.target)), r2.str, s1⟩, s1)
            else
              (.ok ⟨false, ptr.map (fun _ => (r1.target, (ptr.getD fresh).2)), r1.str, s1⟩,
                s1))
        = (match ids with
          | .error e => .error e
          | .ok (itemIds, str1) =>
            match process_item readFirst (ptr.getD fresh).1 str1 (itemIds.getD 0 []) false with
            | .error e => .error e
            | .ok r1 =>
              if r1.status then
                match process_item readSecond (ptr.getD fresh).2 r1.str (itemIds.getD 1 [])
                    false with
                | .error e => .error e
                | .ok r2 =>
                  if r2.status then .ok ⟨true, some (r1.target, r2.target), r2.str, s⟩
                  else .ok ⟨false, ptr.map (fun _ => (r1.target, r2.target)), r2.str, s⟩
              else .ok ⟨false, ptr.map (fun _ => (r1.target, (ptr.getD fresh).2)), r1.str, s⟩,
          s)) := by
    intro ids
    cases ids with
    | error e => rfl
    | ok x =>
      obtain ⟨itemIds, str1⟩ := x
      simp only
      cases h1 : process_item readFirst (ptr.getD fresh).1 str1 (itemIds.getD 0 []) false with
      | error e => rfl
      | ok r1 =>
        simp only
        cases hs1 : r1.status
        · simp
        · simp only [if_true]
          cases h2 : process_item readSecond (ptr.getD fresh).2 r1.str (itemIds.getD 1 [])
              false with
          | error e => rfl
          | ok r2 =>
            simp only
            cases hs2 : r2.status <;> simp
  have htr : GenericReader.ISPAIR.readIntoPtrStack current readFirst readSecond fresh ptr str s
      processClassId
      = (GenericReader.ISPAIR.readIntoPtr current readFirst readSecond fresh ptr str s
          processClassId, s) := by
    unfold GenericReader.ISPAIR.readIntoPtrStack GenericReader.ISPAIR.readIntoPtr
    simp only
    rw [← hshape]
    congr 1
    cases processClassId
    · simp only [Bool.false_eq_true, if_false]
      cases s.getLast? with
      | none => rfl
      | some back =>
        simp only
        split <;> rfl
    · simp only [if_true]
      cases current.ensureSameName (ClassId.read str).1 with
      | error e => rfl
      | ok u =>
        simp only
        split <;> rfl
  refine ⟨by rw [htr], by rw [htr], ?_, ?_⟩
  · intro r h
    unfold GenericReader.ISPAIR.readIntoPtr at h
    simp only at h
    split at h
    · cases h
    · split at h
      · cases h
      · split at h
        · split at h
          · cases h
          · split at h
            · cases h
              rfl
            · cases h
              rfl
        · cases h
          rfl
  · intro s2 hlast
    unfold GenericReader.ISPAIR.readIntoPtr
    simp only [Bool.false_eq_true, if_false, hlast]
    cases s.getLast? with
    | none => rfl
    | some back =>
      by_cases hlen : back.templateParameters.length = 2
      · simp only [hlen, ne_eq, not_true_eq_false, if_false]
        generalize process_item readFirst (ptr.getD fresh).1 str
            (back.templateParameters.getD 0 []) false = q1
        cases q1 with
        | error e => rfl
        | ok r1 =>
          simp only
          cases hs1 : r1.status
          · simp [Except.map]
          · simp only [if_true]
            generalize process_item readSecond (ptr.getD fresh).2 r1.str
                (back.templateParameters.getD 1 []) false = q2
            cases q2 with
            | error e => rfl
            | ok r2 =>
              simp only
              cases hs2 : r2.status <;> simp [Except.map]
      · simp only [hlen, ne_eq, not_false_eq_true, if_true]

/-- A pair read without tag with the identity of `int` on top of the stack:
the rule raises and the stack still holds that one entry. With the identity
of the pair on top and a first-field rule that pushes an entry on the list it
is given, the rule returns true and the stack is as it was. -/
theorem pair_read_keeps_stack_witness :
    (GenericReader.ISPAIR.readIntoPtrStack pairIntStringId (GenericReader.ISPOD.process intId)
        (GenericReader.ISSTRING.process stringId) (toCInt 0, []) none
        (IStream.ofBytes [5, 0, 0, 0, 1, 0, 0, 0, 0, 0, 0, 0, 120]) [intId] false).2
      = [intId] ∧
    (GenericReader.ISPAIR.readIntoPtrStack pairIntStringId (GenericReader.ISPOD.process intId)
        (GenericReader.ISSTRING.process stringId) (toCInt 0, []) none
        (IStream.ofBytes [5, 0, 0, 0, 1, 0, 0, 0, 0, 0, 0, 0, 120]) [intId] false).1
      = .error (.IOInvalidData
          "In gs::GenericReader::readIntoPtr: bad class id for std::pair on the class id stack: int") ∧
    GenericReader.ISPAIR.readIntoPtrStack pairIntStringId
        (fun (x : CInt) is st _ => .ok ⟨true, x, is, st ++ [stringId]⟩)
        (GenericReader.ISSTRING.process stringId) (five, []) none
        (IStream.ofBytes [1, 0, 0, 0, 0, 0, 0, 0, 120]) [pairIntStringId] false
      = (.ok ⟨true, some (five, chars "x"), IStream.ofBytes [], [pairIntStringId]⟩,
          [pairIntStringId]) :=
  ⟨(pair_read_keeps_stack pairIntStringId (GenericReader.ISPOD.process intId)
      (GenericReader.ISSTRING.process stringId) (toCInt 0, []) none
      (IStream.ofBytes [5, 0, 0, 0, 1, 0, 0, 0, 0, 0, 0, 0, 120]) [intId] false).1,
    rfl, rfl⟩

end gs

/-! ## `GenFilterInfo::mergeProduct` -/

/-- C28: for every two `GenFilterInfo` values `x` and `y`, `x.mergeProduct(y)`
returns true and leaves in each of the four event counters of `x`
(passed-positive, passed-negative, total-positive, total-negative) the sum of
its previous value and the corresponding counter of `y`, reduced modulo
`2 ^ 32` as `unsigned int` sums are; `y`, taken by reference to const, is not
written. The merged counters are the same when `y` is merged into `x` and
when `x` is merged into `y`. -/
theorem mergeProduct_counters {D : Type} (add : D → D → D) (x y : GenFilterInfo D) :
    (GenFilterInfo.mergeProduct add x y).1 = true ∧
    (GenFilterInfo.mergeProduct add x y).2.numPassPositiveEvents_
      = (x.numPassPositiveEvents_ + y.numPassPositiveEvents_) % 2 ^ 32 ∧
    (GenFilterInfo.mergeProduct add x y).2.numPassNegativeEvents_
      = (x.numPassNegativeEvents_ + y.numPassNegativeEvents_) % 2 ^ 32 ∧
    (GenFilterInfo.mergeProduct add x y).2.numTotalPositiveEvents_
      = (x.numTotalPositiveEvents_ + y.numTotalPositiveEvents_) % 2 ^ 32 ∧
    (GenFilterInfo.mergeProduct add x y).2.numTotalNegativeEvents_
      = (x.numTotalNegativeEvents_ + y.numTotalNegativeEvents_) % 2 ^ 32 ∧
    ((GenFilterInfo.mergeProduct add x y).2.numPassPositiveEvents_
        = (GenFilterInfo.mergeProduct add y x).2.numPassPositiveEvents_ ∧
      (GenFilterInfo.mergeProduct add x y).2.numPassNegativeEvents_
        = (GenFilterInfo.mergeProduct add y x).2.numPassNegativeEvents_ ∧
      (GenFilterInfo.mergeProduct add x y).2.numTotalPositiveEvents_
        = (GenFilterInfo.mergeProduct add y x).2.numTotalPositiveEvents_ ∧
      (GenFilterInfo.mergeProduct add x y).2.numTotalNegativeEvents_
        = (GenFilterInfo.mergeProduct add y x).2.numTotalNegativeEvents_) ∧
    ((GenFilterInfo.mergeProduct add x y).2.numPassPositiveEvents_ < 2 ^ 32 ∧
      (GenFilterInfo.mergeProduct add x y).2.numPassNegativeEvents_ < 2 ^ 32 ∧
      (GenFilterInfo.mergeProduct add x y).2.numTotalPositiveEvents_ < 2 ^ 32 ∧
      (GenFilterInfo.mergeProduct add x y).2.numTotalNegativeEvents_ < 2 ^ 32) := by
  refine ⟨rfl, rfl, rfl, rfl, rfl, ⟨?_, ?_, ?_, ?_⟩, ⟨?_, ?_, ?_, ?_⟩⟩
  · show (_ + _) % 2 ^ 32 = (_ + _) % 2 ^ 32
    rw [Nat.add_comm]
  · show (_ + _) % 2 ^ 32 = (_ + _) % 2 ^ 32
    rw [Nat.add_comm]
  · show (_ + _) % 2 ^ 32 = (_ + _) % 2 ^ 32
    rw [Nat.add_comm]
  · show (_ + _) % 2 ^ 32 = (_ + _) % 2 ^ 32
    rw [Nat.add_comm]
  · exact Nat.mod_lt _ (by decide)
  · exact Nat.mod_lt _ (by decide)
  · exact Nat.mod_lt _ (by decide)
  · exact Nat.mod_lt _ (by decide)

/-- With 4294967295 passed-positive events in `x` and 2 in `y` the merged
counter wraps around to 1, in either order. -/
theorem mergeProduct_counters_witness :
    (GenFilterInfo.mergeProduct (fun (_ _ : Unit) => ())
        ⟨4294967295, 0, 4294967295, 7, (), (), (), ()⟩ ⟨2, 3, 5, 0, (), (), (), ()⟩).2.numPassPositiveEvents_
      = 1 ∧
    (GenFilterInfo.mergeProduct (fun (_ _ : Unit) => ())
        ⟨4294967295, 0, 4294967295, 7, (), (), (), ()⟩ ⟨2, 3, 5, 0, (), (), (), ()⟩).2.numPassPositiveEvents_
      = (GenFilterInfo.mergeProduct (fun (_ _ : Unit) => ())
        ⟨2, 3, 5, 0, (), (), (), ()⟩ ⟨4294967295, 0, 4294967295, 7, (), (), (), ()⟩).2.numPassPositiveEvents_ :=
  ⟨by decide,
    (mergeProduct_counters (fun (_ _ : Unit) => ())
      ⟨4294967295, 0, 4294967295, 7, (), (), (), ()⟩ ⟨2, 3, 5, 0, (), (), (), ()⟩).2.2.2.2.2.1.1⟩
